import Mathlib

/-!
# The Tux controller protocol driver

A shallow embedding of `module/tuxctl-ioctl.c`: the static variables of the
driver become the fields of `Driver`, every C function becomes a Lean function
from the state before the call to the state after it, together with the frames
it handed to the serial line discipline and (for the ioctls) its return value.

Machine integers are natural numbers or integers with explicit reductions:
`unsigned char` stores are taken modulo `2 ^ 8`, `unsigned int` and
`unsigned long` arithmetic modulo `2 ^ 32` (the driver targets 32-bit x86),
and the conversions to `int` and `long` go through `toInt32`.
-/

namespace Tux

/-! ## Constants -/

/-- The opcodes of `mtcp.h`.  The header is included by the driver but is not
part of the sources at hand, so its values are parameters of the model. -/
structure Mtcp where
  MTCP_RESET_DEV : Nat
  MTCP_LED_USR : Nat
  MTCP_BIOC_ON : Nat
  MTCP_LED_SET : Nat
  MTCP_BIOC_EVENT : Nat
  MTCP_ACK : Nat
  MTCP_RESET : Nat

/-- The outbound opcodes fit the `unsigned char` slots they are stored in. -/
def Mtcp.OutboundBytes (K : Mtcp) : Prop :=
  K.MTCP_RESET_DEV < 256 ∧ K.MTCP_LED_USR < 256 ∧ K.MTCP_BIOC_ON < 256 ∧ K.MTCP_LED_SET < 256

/-- The three `case` labels of the `switch` in `tuxctl_handle_packet` are
pairwise different (a C `switch` does not compile otherwise). -/
def Mtcp.InboundDistinct (K : Mtcp) : Prop :=
  K.MTCP_BIOC_EVENT ≠ K.MTCP_ACK ∧ K.MTCP_BIOC_EVENT ≠ K.MTCP_RESET ∧ K.MTCP_ACK ≠ K.MTCP_RESET

instance (K : Mtcp) : Decidable K.OutboundBytes := by
  unfold Mtcp.OutboundBytes; exact inferInstance

instance (K : Mtcp) : Decidable K.InboundDistinct := by
  unfold Mtcp.InboundDistinct; exact inferInstance

/-- One admissible choice of opcodes: commands in the `0xC0` block, responses
in the `0x40` block. -/
def sampleMtcp : Mtcp where
  MTCP_RESET_DEV := 0xC1
  MTCP_LED_USR := 0xC4
  MTCP_BIOC_ON := 0xC3
  MTCP_LED_SET := 0xC6
  MTCP_BIOC_EVENT := 0x41
  MTCP_ACK := 0x40
  MTCP_RESET := 0x46

/-- The request numbers of `tuxctl-ioctl.h`, likewise parameters. -/
structure TuxIoctl where
  TUX_INIT : Nat
  TUX_BUTTONS : Nat
  TUX_SET_LED : Nat
  TUX_LED_ACK : Nat
  TUX_LED_REQUEST : Nat
  TUX_READ_LED : Nat

/-- The value of `EINVAL` in the `errno` header of the kernel. -/
def EINVAL : Int := 22

def bitmask_for_bioc : Nat := 0xF
def shift_four : Nat := 4
def shift_sixteen : Nat := 16
def shift_twentyfour : Nat := 24
def command_size : Nat := 20
def led_size : Nat := 4
def display_mask : Nat := 0xF
def display_shift : Nat := 4
def led_mask : Nat := 0x1
def led_shift : Nat := 1
def decimal_mask : Nat := 0x1
def decimal_shift : Nat := 1
def decimal_light : Nat := 0x10
def swap_1 : Int := 0x20
def swap_2 : Int := 0x40
def reset_1 : Int := 0xDF
def reset_2 : Int := 0xBF
def reset_led : Nat := 0x0

/-- The 7-segment codes of the sixteen hexadecimal digits. -/
def led_show : List Nat :=
  [0xE7, 0x06, 0xCB, 0x8F,
   0x2E, 0xAD, 0xED, 0x86,
   0xEF, 0xAE, 0xEE, 0x6D,
   0xE1, 0x4F, 0xE9, 0xE8]

/-! ## Machine integers -/

/-- The value of a 32-bit pattern read as a signed `int` or `long`. -/
def toInt32 (n : Nat) : Int :=
  if n % 2 ^ 32 < 2 ^ 31 then ((n % 2 ^ 32 : Nat) : Int) else ((n % 2 ^ 32 : Nat) : Int) - 2 ^ 32

/-! ## Driver state -/

/-- A frame handed to the serial line discipline: the bytes of one
`tuxctl_ldisc_put` call. -/
abbrev Frame := List Nat

/-- The static variables of the driver.  The two byte arrays are maps from
index to byte; `tux_lock` is recorded as held (`true`) or released. -/
structure Driver where
  tux_lock : Bool
  buttons_pressed : Nat
  command : Nat → Nat
  led_command : Nat → Nat
  track : Nat
  cmd_end : Int
  last_led : Nat
  enable_flag : Int
  is_resetting : Nat

/-- The state of the freshly loaded module: statics are zero-initialised. -/
def boot : Driver where
  tux_lock := false
  buttons_pressed := 0
  command := fun _ => 0
  led_command := fun _ => 0
  track := 0
  cmd_end := 0
  last_led := 0
  enable_flag := 0
  is_resetting := 0

/-- What an ioctl leaves behind: the new state, the frames it transmitted in
order, and its return value. -/
structure Outcome where
  state : Driver
  sent : List Frame
  ret : Int

/-- Modelled from the spec: `tuxctl_ldisc_put` of `tuxctl-ld.c`, the send side
of the transport link, which accepts a frame of `n` bytes starting at
`buf + off`.  Its return value is ignored by every caller in the driver. -/
def tuxctl_ldisc_put (buf : Nat → Nat) (off n : Nat) : Frame :=
  (List.range n).map (fun k => buf (off + k))

/-- Modelled from the spec: `spin_lock_irqsave` of the kernel, as the flag of
the lock being set to held. -/
def spin_lock_irqsave (s : Driver) : Driver := { s with tux_lock := true }

/-- Modelled from the spec: `spin_unlock_irqrestore` of the kernel, as the flag
of the lock being set to released. -/
def spin_unlock_irqrestore (s : Driver) : Driver := { s with tux_lock := false }

/-! ## The display encoder inside `tux_set_led` -/

/-- The locals of `tux_set_led` that are live across iterations of its loop,
with the array `led_command` it fills. -/
structure LedLoop where
  led_command : Nat → Nat
  j : Nat
  led_select : Nat
  decimal_select : Nat
  shifted_arg : Int

/-- One iteration of the `for` loop of `tux_set_led`. -/
def led_body (st : LedLoop) : LedLoop :=
  let check_led := st.led_select &&& led_mask
  let st1 : LedLoop :=
    if check_led ≠ 0 then
      let seg := led_show.getD (Int.land st.shifted_arg display_mask).toNat 0
      let check_decimal := st.decimal_select &&& decimal_mask
      let seg1 := if check_decimal ≠ 0 then (seg + decimal_light) % 256 else seg
      { st with led_command := Function.update st.led_command st.j seg1, j := st.j + 1 }
    else st
  { st1 with
    shifted_arg := Int.shiftRight st1.shifted_arg display_shift
    led_select := st1.led_select >>> led_shift
    decimal_select := st1.decimal_select >>> decimal_shift }

/-- The loop `for (i = 0; i < led_size; i++)`, by the number of iterations
that remain. -/
def led_loop : Nat → LedLoop → LedLoop
  | 0, st => st
  | n + 1, st => led_loop n (led_body st)

/-- The first part of `tux_set_led`, up to the end of the loop: the header
bytes are stored and the loop fills in the segment bytes. -/
def led_build (K : Mtcp) (led_command : Nat → Nat) (arg : Nat) : LedLoop :=
  let shifted_arg := toInt32 arg
  let lc0 := Function.update led_command 0 (K.MTCP_LED_SET % 256)
  let led_select := (arg >>> shift_sixteen) &&& display_mask
  let lc1 := Function.update lc0 1 led_select
  let decimal_select := (arg >>> shift_twentyfour) &&& display_mask
  led_loop led_size
    { led_command := lc1, j := 2, led_select := led_select,
      decimal_select := decimal_select, shifted_arg := shifted_arg }

/-- The frame `tux_set_led` has built when it reaches its final test: the
first `j` bytes of `led_command`. -/
def led_frame (K : Mtcp) (led_command : Nat → Nat) (arg : Nat) : Frame :=
  let fin := led_build K led_command arg
  tuxctl_ldisc_put fin.led_command 0 fin.j

/-! ## The ioctls -/

/-- The function `tux_set_led`.  The argument is an `unsigned long`, taken
modulo `2 ^ 32`. -/
def tux_set_led (K : Mtcp) (s : Driver) (arg0 : Nat) : Outcome :=
  let arg := arg0 % 2 ^ 32
  let fin := led_build K s.led_command arg
  let s1 : Driver := { s with led_command := fin.led_command }
  if s1.enable_flag = 0 then
    { state := { s1 with enable_flag := 1, last_led := arg, track := 0 }
      sent := [tuxctl_ldisc_put fin.led_command 0 fin.j]
      ret := 0 }
  else
    { state := s1, sent := [], ret := 0 }

/-- The function `tux_init`. -/
def tux_init (K : Mtcp) (s : Driver) : Outcome :=
  let s1 : Driver :=
    { s with is_resetting := 0, buttons_pressed := 0, enable_flag := 0, track := 0,
             last_led := reset_led }
  let cmd := Function.update (Function.update (Function.update s1.command
    0 (K.MTCP_RESET_DEV % 256)) 1 (K.MTCP_LED_USR % 256)) 2 (K.MTCP_BIOC_ON % 256)
  let s2 : Driver := { s1 with command := cmd, cmd_end := 3 }
  let p : Driver × List Frame :=
    if s2.enable_flag = 0 then
      ({ s2 with enable_flag := 1 }, [tuxctl_ldisc_put s2.command s2.track 1])
    else (s2, [])
  let r := tux_set_led K p.1 p.1.last_led
  { state := r.state, sent := p.2 ++ r.sent, ret := 0 }

/-- The function `tux_buttons`.  The argument is the address of an `int`
of the caller; the third component is the value stored there, if any. -/
def tux_buttons (s : Driver) (arg : Nat) : Outcome × Option Int :=
  let s1 := spin_lock_irqsave s
  if arg = 0 then
    ({ state := s1, sent := [], ret := -EINVAL }, none)
  else
    let subsititue := toInt32 s1.buttons_pressed
    let check1 := Int.land subsititue swap_1
    let check2 := Int.land subsititue swap_2
    let subsititue := Int.land subsititue reset_1
    let subsititue := Int.land subsititue reset_2
    let subsititue := Int.lor subsititue (check1 <<< (1 : Int))
    let subsititue := Int.lor subsititue (Int.shiftRight check2 1)
    ({ state := spin_unlock_irqrestore s1, sent := [], ret := 0 }, some subsititue)

/-- The function `reset`. -/
def reset (K : Mtcp) (s : Driver) : Outcome :=
  if s.is_resetting = 0 then
    let s1 : Driver :=
      { s with command := Function.update s.command 0 (K.MTCP_RESET_DEV % 256),
               track := 0, cmd_end := 1, enable_flag := 1, is_resetting := 1 }
    let f1 := tuxctl_ldisc_put s1.command s1.track 1
    let s2 : Driver := { s1 with buttons_pressed := 0, enable_flag := 0, track := 0 }
    let cmd := Function.update (Function.update s2.command
      0 (K.MTCP_LED_USR % 256)) 1 (K.MTCP_BIOC_ON % 256)
    let s3 : Driver := { s2 with command := cmd, cmd_end := 2 }
    let p : Driver × List Frame :=
      if s3.enable_flag = 0 then
        ({ s3 with enable_flag := 1 }, [tuxctl_ldisc_put s3.command s3.track 1])
      else (s3, [])
    let r := tux_set_led K p.1 p.1.last_led
    { state := r.state, sent := f1 :: (p.2 ++ r.sent), ret := 0 }
  else
    { state := { s with is_resetting := 0 }, sent := [], ret := 0 }

/-- The function `tux_led_ack`. -/
def tux_led_ack (s : Driver) : Outcome :=
  { state := spin_unlock_irqrestore (spin_lock_irqsave s), sent := [], ret := 0 }

/-- The function `tux_led_request`. -/
def tux_led_request (s : Driver) : Outcome :=
  { state := spin_unlock_irqrestore (spin_lock_irqsave s), sent := [], ret := 0 }

/-- The function `tux_read_led`. -/
def tux_read_led (s : Driver) : Outcome :=
  { state := spin_unlock_irqrestore (spin_lock_irqsave s), sent := [], ret := 0 }

/-! ## Packet ingestion -/

/-- The function `tuxctl_handle_packet`, on the three bytes `a`, `b`, `c` of
the packet.  The `switch` is read as a chain of comparisons in the order of
its `case` labels. -/
def tuxctl_handle_packet (K : Mtcp) (s : Driver) (a b c : Nat) : Driver × List Frame :=
  if a = K.MTCP_BIOC_EVENT then
    ({ s with buttons_pressed :=
        (((c &&& bitmask_for_bioc) <<< shift_four) + (b &&& bitmask_for_bioc)) % 2 ^ 32 }, [])
  else if a = K.MTCP_ACK then
    let s1 : Driver := { s with enable_flag := 0 }
    let s2 : Driver := { s1 with track := (s1.track + 1) % 2 ^ 32 }
    if (s2.track : Int) ≠ s2.cmd_end % 2 ^ 32 then
      ({ s2 with enable_flag := 1 }, [tuxctl_ldisc_put s2.command s2.track 1])
    else (s2, [])
  else if a = K.MTCP_RESET then
    let r := reset K s
    (r.state, r.sent)
  else (s, [])

/-- The function `tuxctl_ioctl`; the second component is the value stored
through the argument by `TUX_BUTTONS`, if any. -/
def tuxctl_ioctl (K : Mtcp) (T : TuxIoctl) (s : Driver) (cmd arg : Nat) : Outcome × Option Int :=
  if cmd = T.TUX_INIT then (tux_init K s, none)
  else if cmd = T.TUX_BUTTONS then tux_buttons s arg
  else if cmd = T.TUX_SET_LED then (tux_set_led K s arg, none)
  else if cmd = T.TUX_LED_ACK then (tux_led_ack s, none)
  else if cmd = T.TUX_LED_REQUEST then (tux_led_request s, none)
  else if cmd = T.TUX_READ_LED then (tux_read_led s, none)
  else ({ state := s, sent := [], ret := -EINVAL }, none)


/-! ## The display request in the words of the specification -/

/-- Digit `i` of a display argument: the nibble at bits `4 * i` to `4 * i + 3`. -/
def digit_nibble (arg i : Nat) : Nat := (arg >>> (4 * i)) &&& 0xF

/-- The enable mask of a display argument: bits 16 to 19. -/
def enable_mask (arg : Nat) : Nat := (arg >>> 16) &&& 0xF

/-- The decimal-point mask of a display argument: bits 24 to 27. -/
def decimal_points (arg : Nat) : Nat := (arg >>> 24) &&& 0xF

/-- The number of bits set among the four bits of a mask. -/
def popcount4 (m : Nat) : Nat := ((List.range 4).filter (fun i => m.testBit i)).length

/-- The segment byte the specification asks for digit `i`: its table entry,
OR-combined with the decimal-point bit when the decimal bit of the digit is set. -/
def spec_segment (arg i : Nat) : Nat :=
  if (decimal_points arg).testBit i then led_show.getD (digit_nibble arg i) 0 ||| 0x10
  else led_show.getD (digit_nibble arg i) 0

/-- The segment bytes the specification asks for: one per enabled digit, in
ascending digit position. -/
def spec_segments (arg : Nat) : List Nat :=
  ((List.range 4).filter (fun i => (enable_mask arg).testBit i)).map (spec_segment arg)

/-! ## Runs of the driver -/

/-- What can happen to the driver: a call of one of its ioctls, or a packet
handed over by the line discipline. -/
inductive Event where
  | init
  | set_led (arg : Nat)
  | buttons (arg : Nat)
  | packet (a b c : Nat)

/-- One event: the state after it and the frames transmitted during it. -/
def step (K : Mtcp) (s : Driver) : Event → Driver × List Frame
  | Event.init => ((tux_init K s).state, (tux_init K s).sent)
  | Event.set_led arg => ((tux_set_led K s arg).state, (tux_set_led K s arg).sent)
  | Event.buttons arg => ((tux_buttons s arg).1.state, (tux_buttons s arg).1.sent)
  | Event.packet a b c => tuxctl_handle_packet K s a b c

/-- A sequence of events: the final state and all frames transmitted, in
order of transmission. -/
def run (K : Mtcp) : Driver → List Event → Driver × List Frame
  | s, [] => (s, [])
  | s, e :: es => ((run K (step K s e).1 es).1, (step K s e).2 ++ (run K (step K s e).1 es).2)

/-- Whether an event is an acknowledgment packet. -/
def is_ack (K : Mtcp) : Event → Bool
  | Event.packet a _ _ => decide (a = K.MTCP_ACK)
  | _ => false

/-- The number of acknowledgment packets among the events. -/
def acks (K : Mtcp) (es : List Event) : Nat := es.countP (is_ack K)

/-! ## Auxiliary functions for the proofs -/

/-- The segment byte the loop body stores for an enabled digit. -/
def seg_byte (d : Nat) (x : Int) : Nat :=
  if d &&& 1 ≠ 0 then (led_show.getD (Int.land x 15).toNat 0 + 16) % 256
  else led_show.getD (Int.land x 15).toNat 0

/-- The segment bytes appended by `k` iterations of the loop. -/
def segs : Nat → Nat → Nat → Int → List Nat
  | 0, _, _, _ => []
  | k + 1, m, d, x =>
    (if m &&& 1 ≠ 0 then [seg_byte d x] else []) ++
      segs k (m >>> 1) (d >>> 1) (Int.shiftRight x 4)


/-- The word `tux_buttons` stores through its argument, as a function of the
stored button mask. -/
def button_word (n : Nat) : Int :=
  Int.lor (Int.lor (Int.land (Int.land (toInt32 n) reset_1) reset_2)
    (Int.land (toInt32 n) swap_1 <<< (1 : Int))) (Int.shiftRight (Int.land (toInt32 n) swap_2) 1)

/-- The bit position a logical button is read from: positions 5 and 6 are
exchanged. -/
def swapped_bit (i : Nat) : Nat := if i = 5 then 6 else if i = 6 then 5 else i

/-- The driver after `tux_init` and the three acknowledgments that drain its
burst. -/
def after_init (K : Mtcp) (s : Driver) : Driver :=
  (run K s [Event.init, Event.packet K.MTCP_ACK 0 0, Event.packet K.MTCP_ACK 0 0,
    Event.packet K.MTCP_ACK 0 0]).1

/-- Whether an event is a packet that the handler treats as an acknowledgment
or whose opcode is none of the three `case` labels. -/
def is_ack_or_unknown (K : Mtcp) : Event → Bool
  | Event.packet a _ _ =>
    decide (a = K.MTCP_ACK) ||
      (decide (a ≠ K.MTCP_BIOC_EVENT) && decide (a ≠ K.MTCP_ACK) && decide (a ≠ K.MTCP_RESET))
  | _ => false

/-- The six `case` labels of the `switch` in `tuxctl_ioctl` are pairwise
different (a C `switch` does not compile otherwise). -/
def TuxIoctl.Distinct (T : TuxIoctl) : Prop :=
  [T.TUX_INIT, T.TUX_BUTTONS, T.TUX_SET_LED, T.TUX_LED_ACK, T.TUX_LED_REQUEST,
    T.TUX_READ_LED].Nodup

instance (T : TuxIoctl) : Decidable T.Distinct := by
  unfold TuxIoctl.Distinct; exact inferInstance

/-- One admissible choice of request numbers. -/
def sampleIoctl : TuxIoctl where
  TUX_INIT := 0x13
  TUX_BUTTONS := 0x12
  TUX_SET_LED := 0x10
  TUX_LED_ACK := 0x15
  TUX_LED_REQUEST := 0x14
  TUX_READ_LED := 0x11

/-! ## The caller of the display ioctl in `input.c` -/

def seconds_minute : Int := 60
def light_3_led : Nat := 0x7
def light_4_led : Nat := 0xF
def display_digits : Nat := 4
def get_each : Int := 10
def light_second_decimal : Nat := 0x4

/-- The loop `for (i = 0; i < display_digits; i++)` of `display_time_on_tux`,
which adds `display[i] << (i * shift_four)` to `arg`; the first argument counts
the iterations that remain. -/
def pack_digits (display : Nat → Nat) : Nat → Nat → Nat → Nat
  | 0, _, arg => arg
  | n + 1, i, arg =>
    pack_digits display n (i + 1) ((arg + (display i <<< (i * shift_four))) % 2 ^ 32)

/-- The function `display_time_on_tux` of `input.c`: the value of `arg` it
passes to the `TUX_SET_LED` ioctl.  Division and remainder of `int` truncate
towards zero; the digits are stored as `unsigned char`. -/
def display_time_on_tux (num_seconds : Int) : Nat :=
  let minutes := Int.tdiv num_seconds seconds_minute
  let seconds := Int.tmod num_seconds seconds_minute
  let lighting_led := if minutes < 10 then light_3_led else light_4_led
  let lighting_decimal := light_second_decimal
  let display : Nat → Nat :=
    Function.update (Function.update (Function.update (Function.update (fun _ => 0)
      0 (Int.tmod seconds get_each % 256).toNat)
      1 (Int.tdiv seconds get_each % 256).toNat)
      2 (Int.tmod minutes get_each % 256).toNat)
      3 (Int.tdiv minutes get_each % 256).toNat
  let arg := pack_digits display display_digits 0 0
  let arg := (arg + (lighting_led <<< shift_sixteen)) % 2 ^ 32
  let arg := (arg + (lighting_decimal <<< shift_twentyfour)) % 2 ^ 32
  arg


/-- A run of `n` acknowledgment packets. -/
def ack_packets (K : Mtcp) (n : Nat) : List Event :=
  List.replicate n (Event.packet K.MTCP_ACK 0 0)


/-! # Theorems -/

/-! ## Bit-level lemmas and the loop of the display encoder -/

theorem land_fifteen (x : Int) : Int.land x 15 = x % 16 := by
  cases x with
  | ofNat n =>
    show ((Nat.land n 15 : Nat) : Int) = _
    have : Nat.land n 15 = n % 16 := Nat.and_pow_two_sub_one_eq_mod n 4
    rw [this]; rfl
  | negSucc n =>
    show ((Nat.ldiff 15 n : Nat) : Int) = _
    have h1 : Nat.ldiff 15 n = Nat.ldiff 15 (n % 16) := by
      apply Nat.eq_of_testBit_eq
      intro i
      rw [Nat.testBit_ldiff, Nat.testBit_ldiff]
      have e : (16 : Nat) = 2 ^ 4 := by norm_num
      have f : (15 : Nat) = 2 ^ 4 - 1 := by norm_num
      rw [e, Nat.testBit_mod_two_pow, f, Nat.testBit_two_pow_sub_one]
      by_cases h : i < 4 <;> simp [h]
    have h2 : ∀ r, r < 16 → Nat.ldiff 15 r = 15 - r := by
      intro r hr
      interval_cases r <;> simp [Nat.ldiff, Nat.bitwise]
    rw [h1, h2 _ (Nat.mod_lt _ (by norm_num))]
    have := Nat.mod_lt n (show 16 > 0 by norm_num)
    rw [Int.negSucc_eq]
    omega

theorem add_light_eq_or : ∀ n, n < 16 →
    (led_show.getD n 0 + decimal_light) % 256 = led_show.getD n 0 ||| 0x10 := by
  decide

theorem put_update_succ (lc : Nat → Nat) (j v : Nat) :
    tuxctl_ldisc_put (Function.update lc j v) 0 (j + 1) = tuxctl_ldisc_put lc 0 j ++ [v] := by
  unfold tuxctl_ldisc_put
  rw [List.range_succ, List.map_append]
  congr 1
  · apply List.map_congr_left
    intro k hk
    have : k < j := List.mem_range.mp hk
    simp only [Function.update_apply, Nat.zero_add, Nat.ne_of_lt this, if_false]
  · simp only [List.map_cons, List.map_nil, Function.update_apply, Nat.zero_add, if_true]

theorem led_body_frame (st : LedLoop) :
    tuxctl_ldisc_put (led_body st).led_command 0 (led_body st).j =
      tuxctl_ldisc_put st.led_command 0 st.j ++
        (if st.led_select &&& 1 ≠ 0 then [seg_byte st.decimal_select st.shifted_arg] else []) := by
  unfold led_body
  by_cases h : st.led_select &&& 1 ≠ 0
  · simp only [led_mask, if_pos h]
    rw [put_update_succ]
    rfl
  · simp only [ne_eq, not_not] at h
    simp [led_mask, h]

theorem led_body_fields (st : LedLoop) :
    (led_body st).led_select = st.led_select >>> 1 ∧
    (led_body st).decimal_select = st.decimal_select >>> 1 ∧
    (led_body st).shifted_arg = Int.shiftRight st.shifted_arg 4 := by
  unfold led_body
  by_cases h : st.led_select &&& led_mask ≠ 0 <;> simp [h, led_shift, decimal_shift, display_shift]

theorem led_loop_frame (k : Nat) : ∀ st : LedLoop,
    tuxctl_ldisc_put (led_loop k st).led_command 0 (led_loop k st).j =
      tuxctl_ldisc_put st.led_command 0 st.j ++
        segs k st.led_select st.decimal_select st.shifted_arg := by
  induction k with
  | zero => intro st; simp [led_loop, segs]
  | succ k ih =>
    intro st
    obtain ⟨h1, h2, h3⟩ := led_body_fields st
    rw [led_loop, ih, led_body_frame, segs, h1, h2, h3, List.append_assoc]

theorem led_frame_eq (K : Mtcp) (lc : Nat → Nat) (arg : Nat) :
    led_frame K lc arg =
      [K.MTCP_LED_SET % 256, (arg >>> 16) &&& 15] ++
        segs 4 ((arg >>> 16) &&& 15) ((arg >>> 24) &&& 15) (toInt32 arg) := by
  unfold led_frame led_build
  simp only [led_size, shift_sixteen, shift_twentyfour, display_mask]
  rw [led_loop_frame]
  congr 1

theorem shiftRight_four (x : Int) : Int.shiftRight x 4 = x / 16 := by
  have h := Int.shiftRight_eq_div_pow x 4
  simpa using h

theorem nibble_read (arg : Nat) :
    (Int.land (toInt32 arg) 15).toNat = digit_nibble arg 0 ∧
    (Int.land (Int.shiftRight (toInt32 arg) 4) 15).toNat = digit_nibble arg 1 ∧
    (Int.land (Int.shiftRight (Int.shiftRight (toInt32 arg) 4) 4) 15).toNat = digit_nibble arg 2 ∧
    (Int.land (Int.shiftRight (Int.shiftRight (Int.shiftRight (toInt32 arg) 4) 4) 4) 15).toNat
      = digit_nibble arg 3 := by
  have e : ∀ a k : Nat, (a >>> (4 * k)) &&& 0xF = a / 2 ^ (4 * k) % 16 := by
    intro a k
    rw [Nat.shiftRight_eq_div_pow]
    exact Nat.and_pow_two_sub_one_eq_mod _ 4
  simp only [land_fifteen, shiftRight_four, digit_nibble, e]
  unfold toInt32
  norm_num
  split <;> omega

theorem bit_test (m : Nat) :
    (m &&& 1 ≠ 0 ↔ m.testBit 0 = true) ∧
    (m >>> 1 &&& 1 ≠ 0 ↔ m.testBit 1 = true) ∧
    (m >>> 1 >>> 1 &&& 1 ≠ 0 ↔ m.testBit 2 = true) ∧
    (m >>> 1 >>> 1 >>> 1 &&& 1 ≠ 0 ↔ m.testBit 3 = true) := by
  simp only [Nat.testBit_to_div_mod, Nat.and_one_is_mod, Nat.shiftRight_eq_div_pow,
    decide_eq_true_eq]
  norm_num
  omega

theorem seg_byte_eq (arg i d : Nat) (x : Int)
    (hx : (Int.land x 15).toNat = digit_nibble arg i)
    (hd : d &&& 1 ≠ 0 ↔ (decimal_points arg).testBit i = true) :
    seg_byte d x = spec_segment arg i := by
  have hn : digit_nibble arg i < 16 := by
    unfold digit_nibble
    exact Nat.lt_of_le_of_lt Nat.and_le_right (by norm_num)
  unfold seg_byte spec_segment
  rw [hx]
  by_cases h : d &&& 1 ≠ 0
  · rw [if_pos h, if_pos (hd.mp h)]
    exact add_light_eq_or _ hn
  · rw [if_neg h, if_neg (fun c => h (hd.mpr c))]

theorem segs_eq_spec (arg : Nat) :
    segs 4 (enable_mask arg) (decimal_points arg) (toInt32 arg) = spec_segments arg := by
  obtain ⟨n0, n1, n2, n3⟩ := nibble_read arg
  obtain ⟨d0, d1, d2, d3⟩ := bit_test (decimal_points arg)
  obtain ⟨m0, m1, m2, m3⟩ := bit_test (enable_mask arg)
  have r : List.range 4 = [0, 1, 2, 3] := by decide
  simp only [segs, spec_segments, r, List.filter_cons, List.filter_nil,
    seg_byte_eq arg 0 _ _ n0 d0, seg_byte_eq arg 1 _ _ n1 d1,
    seg_byte_eq arg 2 _ _ n2 d2, seg_byte_eq arg 3 _ _ n3 d3, m0, m1, m2, m3]
  cases (enable_mask arg).testBit 0 <;> cases (enable_mask arg).testBit 1 <;>
    cases (enable_mask arg).testBit 2 <;> cases (enable_mask arg).testBit 3 <;> simp

theorem segs_length (arg : Nat) :
    (segs 4 (enable_mask arg) (decimal_points arg) (toInt32 arg)).length
      = popcount4 (enable_mask arg) := by
  rw [segs_eq_spec, spec_segments, List.length_map, popcount4]

theorem popcount4_le (m : Nat) : popcount4 m ≤ 4 := by
  unfold popcount4
  exact le_trans (List.length_filter_le _ _) (by simp)

theorem masks_mod (arg : Nat) :
    enable_mask (arg % 2 ^ 32) = enable_mask arg ∧
    decimal_points (arg % 2 ^ 32) = decimal_points arg ∧
    toInt32 (arg % 2 ^ 32) = toInt32 arg := by
  have e : ∀ a k : Nat, (a >>> k) &&& 0xF = a / 2 ^ k % 16 := by
    intro a k
    rw [Nat.shiftRight_eq_div_pow]
    exact Nat.and_pow_two_sub_one_eq_mod _ 4
  refine ⟨?_, ?_, ?_⟩
  · simp only [enable_mask, e]; norm_num; omega
  · simp only [decimal_points, e]; norm_num; omega
  · simp only [toInt32, Nat.mod_mod]

theorem led_frame_mod (K : Mtcp) (lc : Nat → Nat) (arg : Nat) :
    led_frame K lc (arg % 2 ^ 32) = led_frame K lc arg := by
  obtain ⟨h1, h2, h3⟩ := masks_mod arg
  rw [led_frame_eq, led_frame_eq]
  change [K.MTCP_LED_SET % 256, enable_mask (arg % 2 ^ 32)] ++
      segs 4 (enable_mask (arg % 2 ^ 32)) (decimal_points (arg % 2 ^ 32)) (toInt32 (arg % 2 ^ 32))
    = [K.MTCP_LED_SET % 256, enable_mask arg] ++
      segs 4 (enable_mask arg) (decimal_points arg) (toInt32 arg)
  rw [h1, h2, h3]

theorem led_frame_spec (K : Mtcp) (lc : Nat → Nat) (arg : Nat) :
    led_frame K lc arg = [K.MTCP_LED_SET % 256, enable_mask arg] ++ spec_segments arg := by
  rw [led_frame_eq, ← segs_eq_spec]
  rfl

theorem tux_set_led_sent (K : Mtcp) (s : Driver) (arg : Nat) :
    (tux_set_led K s arg).sent =
      if s.enable_flag = 0 then [led_frame K s.led_command arg] else [] := by
  rw [← led_frame_mod]
  unfold tux_set_led led_frame
  by_cases h : s.enable_flag = 0 <;> simp [h]

theorem enable_mask_lt (arg : Nat) : enable_mask arg < 16 := by
  unfold enable_mask
  exact Nat.lt_of_le_of_lt Nat.and_le_right (by norm_num)

/-- C1: after its two header bytes, the frame built by `tux_set_led` holds
one segment byte per enabled digit, in ascending digit position, as many as the
enable mask has bits set; the byte of digit `i` is its table entry, OR-combined
with `0x10` exactly when decimal bit `i` is set (adding `0x10`, as the code
does, gives the same byte for all sixteen table entries). -/
theorem C1_segment_bytes (K : Mtcp) (s : Driver) (arg : Nat) :
    (tux_set_led K s arg).sent
        = (if s.enable_flag = 0 then [led_frame K s.led_command arg] else []) ∧
    (led_frame K s.led_command arg).drop 2 = spec_segments arg ∧
    ((led_frame K s.led_command arg).drop 2).length = popcount4 (enable_mask arg) ∧
    (∀ n, n < 16 →
      (led_show.getD n 0 + decimal_light) % 256 = led_show.getD n 0 ||| 0x10) := by
  refine ⟨tux_set_led_sent K s arg, ?_, ?_, add_light_eq_or⟩
  · rw [led_frame_spec]; rfl
  · rw [led_frame_spec]
    simp [spec_segments, popcount4]

/-- C2: the frame built by `tux_set_led` starts with the opcode `MTCP_LED_SET`,
followed by the 4-bit enable mask (bits 16 to 19 of the argument), and its
length is two plus the number of bits set in the mask, between 2 and 6. -/
theorem C2_frame_header (K : Mtcp) (s : Driver) (arg : Nat) (hK : K.MTCP_LED_SET < 256) :
    (tux_set_led K s arg).sent
        = (if s.enable_flag = 0 then [led_frame K s.led_command arg] else []) ∧
    (led_frame K s.led_command arg)[0]? = some K.MTCP_LED_SET ∧
    (led_frame K s.led_command arg)[1]? = some (arg / 2 ^ 16 % 16) ∧
    (led_frame K s.led_command arg).length = 2 + popcount4 (arg / 2 ^ 16 % 16) ∧
    2 ≤ (led_frame K s.led_command arg).length ∧
    (led_frame K s.led_command arg).length ≤ 6 := by
  have hm : enable_mask arg = arg / 2 ^ 16 % 16 := by
    unfold enable_mask
    rw [Nat.shiftRight_eq_div_pow]
    exact Nat.and_pow_two_sub_one_eq_mod _ 4
  have hl : (led_frame K s.led_command arg).length = 2 + popcount4 (enable_mask arg) := by
    rw [led_frame_spec]
    simp only [spec_segments, popcount4, List.length_append, List.length_cons, List.length_nil,
      List.length_map]
  have hp := popcount4_le (enable_mask arg)
  refine ⟨tux_set_led_sent K s arg, ?_, ?_, ?_, ?_, ?_⟩
  · rw [led_frame_spec]; simp [Nat.mod_eq_of_lt hK]
  · rw [led_frame_spec, ← hm]; simp
  · rw [hl, hm]
  · omega
  · omega

/-- C2 at the sample opcodes, for the request "1234" with all digits enabled. -/
theorem C2_frame_header_witness :
    (tux_set_led sampleMtcp boot 0x000F4321).sent
        = (if boot.enable_flag = 0 then [led_frame sampleMtcp boot.led_command 0x000F4321]
            else []) ∧
    (led_frame sampleMtcp boot.led_command 0x000F4321)[0]? = some sampleMtcp.MTCP_LED_SET ∧
    (led_frame sampleMtcp boot.led_command 0x000F4321)[1]? = some (0x000F4321 / 2 ^ 16 % 16) ∧
    (led_frame sampleMtcp boot.led_command 0x000F4321).length
        = 2 + popcount4 (0x000F4321 / 2 ^ 16 % 16) ∧
    2 ≤ (led_frame sampleMtcp boot.led_command 0x000F4321).length ∧
    (led_frame sampleMtcp boot.led_command 0x000F4321).length ≤ 6 :=
  C2_frame_header sampleMtcp boot 0x000F4321 (by decide)

/-! ## The ioctls and the packet handler, case by case -/

theorem tux_set_led_busy (K : Mtcp) (s : Driver) (arg : Nat) (h : s.enable_flag ≠ 0) :
    tux_set_led K s arg =
      { state := { s with led_command := (led_build K s.led_command (arg % 2 ^ 32)).led_command }
        sent := []
        ret := 0 } := by
  unfold tux_set_led
  simp [h]

theorem tux_set_led_idle (K : Mtcp) (s : Driver) (arg : Nat) (h : s.enable_flag = 0) :
    tux_set_led K s arg =
      { state := { s with led_command := (led_build K s.led_command (arg % 2 ^ 32)).led_command,
                          enable_flag := 1, last_led := arg % 2 ^ 32, track := 0 }
        sent := [led_frame K s.led_command arg]
        ret := 0 } := by
  rw [← led_frame_mod]
  unfold tux_set_led led_frame
  simp [h]

theorem put_one (buf : Nat → Nat) (off : Nat) : tuxctl_ldisc_put buf off 1 = [buf off] := rfl

theorem tux_init_eq (K : Mtcp) (s : Driver) :
    tux_init K s =
      { state :=
          { tux_lock := s.tux_lock
            buttons_pressed := 0
            command := Function.update (Function.update (Function.update s.command
              0 (K.MTCP_RESET_DEV % 256)) 1 (K.MTCP_LED_USR % 256)) 2 (K.MTCP_BIOC_ON % 256)
            led_command := (led_build K s.led_command 0).led_command
            track := 0
            cmd_end := 3
            last_led := 0
            enable_flag := 1
            is_resetting := 0 }
        sent := [[K.MTCP_RESET_DEV % 256]]
        ret := 0 } := by
  unfold tux_init
  simp [tux_set_led_busy, put_one, reset_led]

theorem handle_ack (K : Mtcp) (s : Driver) (b c : Nat) (hD : K.MTCP_BIOC_EVENT ≠ K.MTCP_ACK) :
    tuxctl_handle_packet K s K.MTCP_ACK b c =
      if (((s.track + 1) % 2 ^ 32 : Nat) : Int) ≠ s.cmd_end % 2 ^ 32 then
        ({ s with enable_flag := 1, track := (s.track + 1) % 2 ^ 32 },
          [[s.command ((s.track + 1) % 2 ^ 32)]])
      else ({ s with enable_flag := 0, track := (s.track + 1) % 2 ^ 32 }, []) := by
  unfold tuxctl_handle_packet
  rw [if_neg (Ne.symm hD), if_pos rfl]
  simp [put_one]

theorem handle_ack_more (K : Mtcp) (s : Driver) (b c : Nat) (hD : K.MTCP_BIOC_EVENT ≠ K.MTCP_ACK)
    (h : (((s.track + 1) % 2 ^ 32 : Nat) : Int) ≠ s.cmd_end % 2 ^ 32) :
    tuxctl_handle_packet K s K.MTCP_ACK b c =
      ({ s with enable_flag := 1, track := (s.track + 1) % 2 ^ 32 },
        [[s.command ((s.track + 1) % 2 ^ 32)]]) := by
  rw [handle_ack K s b c hD, if_pos h]

theorem handle_ack_last (K : Mtcp) (s : Driver) (b c : Nat) (hD : K.MTCP_BIOC_EVENT ≠ K.MTCP_ACK)
    (h : (((s.track + 1) % 2 ^ 32 : Nat) : Int) = s.cmd_end % 2 ^ 32) :
    tuxctl_handle_packet K s K.MTCP_ACK b c =
      ({ s with enable_flag := 0, track := (s.track + 1) % 2 ^ 32 }, []) := by
  rw [handle_ack K s b c hD, if_neg (not_not.mpr h)]

theorem reset_armed (K : Mtcp) (s : Driver) (h : s.is_resetting = 0) :
    reset K s =
      { state :=
          { tux_lock := s.tux_lock
            buttons_pressed := 0
            command := Function.update (Function.update (Function.update s.command
              0 (K.MTCP_RESET_DEV % 256)) 0 (K.MTCP_LED_USR % 256)) 1 (K.MTCP_BIOC_ON % 256)
            led_command := (led_build K s.led_command (s.last_led % 2 ^ 32)).led_command
            track := 0
            cmd_end := 2
            last_led := s.last_led
            enable_flag := 1
            is_resetting := 1 }
        sent := [[K.MTCP_RESET_DEV % 256], [K.MTCP_LED_USR % 256]]
        ret := 0 } := by
  unfold reset
  simp [h, tux_set_led_busy, put_one]

theorem reset_in_progress (K : Mtcp) (s : Driver) (h : s.is_resetting ≠ 0) :
    reset K s = { state := { s with is_resetting := 0 }, sent := [], ret := 0 } := by
  unfold reset
  simp [h]

theorem handle_reset (K : Mtcp) (s : Driver) (b c : Nat) (hD : K.InboundDistinct) :
    tuxctl_handle_packet K s K.MTCP_RESET b c = ((reset K s).state, (reset K s).sent) := by
  obtain ⟨_, h2, h3⟩ := hD
  unfold tuxctl_handle_packet
  rw [if_neg (Ne.symm h2), if_neg (Ne.symm h3), if_pos rfl]

/-- C3: `tux_init` transmits the single frame `[MTCP_RESET_DEV]`; the first
acknowledgment after it transmits `[MTCP_LED_USR]`, the second transmits
`[MTCP_BIOC_ON]`, and the third transmits nothing and leaves the pipeline idle. -/
theorem C3_init_burst (K : Mtcp) (s : Driver) (b1 c1 b2 c2 b3 c3 : Nat)
    (hK : K.OutboundBytes) (hD : K.InboundDistinct) :
    (tux_init K s).sent = [[K.MTCP_RESET_DEV]] ∧
    (tux_init K s).state.enable_flag = 1 ∧
    (tuxctl_handle_packet K (tux_init K s).state K.MTCP_ACK b1 c1).2 = [[K.MTCP_LED_USR]] ∧
    (tuxctl_handle_packet K (tux_init K s).state K.MTCP_ACK b1 c1).1.enable_flag = 1 ∧
    (tuxctl_handle_packet K
      (tuxctl_handle_packet K (tux_init K s).state K.MTCP_ACK b1 c1).1
        K.MTCP_ACK b2 c2).2 = [[K.MTCP_BIOC_ON]] ∧
    (tuxctl_handle_packet K
      (tuxctl_handle_packet K (tux_init K s).state K.MTCP_ACK b1 c1).1
        K.MTCP_ACK b2 c2).1.enable_flag = 1 ∧
    (tuxctl_handle_packet K
      (tuxctl_handle_packet K
        (tuxctl_handle_packet K (tux_init K s).state K.MTCP_ACK b1 c1).1
          K.MTCP_ACK b2 c2).1 K.MTCP_ACK b3 c3).2 = [] ∧
    (tuxctl_handle_packet K
      (tuxctl_handle_packet K
        (tuxctl_handle_packet K (tux_init K s).state K.MTCP_ACK b1 c1).1
          K.MTCP_ACK b2 c2).1 K.MTCP_ACK b3 c3).1.enable_flag = 0 := by
  obtain ⟨k1, k2, k3, _⟩ := hK
  have hA := hD.1
  rw [tux_init_eq]
  rw [handle_ack_more K _ b1 c1 hA (by simp)]
  rw [handle_ack_more K _ b2 c2 hA (by simp)]
  rw [handle_ack_last K _ b3 c3 hA (by simp)]
  simp [Function.update, Nat.mod_eq_of_lt, k1, k2, k3]

/-- C3 at the sample opcodes, from the freshly loaded module. -/
theorem C3_init_burst_witness :
    (tux_init sampleMtcp boot).sent = [[sampleMtcp.MTCP_RESET_DEV]] ∧
    (tux_init sampleMtcp boot).state.enable_flag = 1 ∧
    (tuxctl_handle_packet sampleMtcp (tux_init sampleMtcp boot).state
      sampleMtcp.MTCP_ACK 0 0).2 = [[sampleMtcp.MTCP_LED_USR]] ∧
    (tuxctl_handle_packet sampleMtcp (tux_init sampleMtcp boot).state
      sampleMtcp.MTCP_ACK 0 0).1.enable_flag = 1 ∧
    (tuxctl_handle_packet sampleMtcp
      (tuxctl_handle_packet sampleMtcp (tux_init sampleMtcp boot).state
        sampleMtcp.MTCP_ACK 0 0).1
        sampleMtcp.MTCP_ACK 0 0).2 = [[sampleMtcp.MTCP_BIOC_ON]] ∧
    (tuxctl_handle_packet sampleMtcp
      (tuxctl_handle_packet sampleMtcp (tux_init sampleMtcp boot).state
        sampleMtcp.MTCP_ACK 0 0).1
        sampleMtcp.MTCP_ACK 0 0).1.enable_flag = 1 ∧
    (tuxctl_handle_packet sampleMtcp
      (tuxctl_handle_packet sampleMtcp
        (tuxctl_handle_packet sampleMtcp (tux_init sampleMtcp boot).state
          sampleMtcp.MTCP_ACK 0 0).1
          sampleMtcp.MTCP_ACK 0 0).1 sampleMtcp.MTCP_ACK 0 0).2 = [] ∧
    (tuxctl_handle_packet sampleMtcp
      (tuxctl_handle_packet sampleMtcp
        (tuxctl_handle_packet sampleMtcp (tux_init sampleMtcp boot).state
          sampleMtcp.MTCP_ACK 0 0).1
          sampleMtcp.MTCP_ACK 0 0).1 sampleMtcp.MTCP_ACK 0 0).1.enable_flag = 0 :=
  C3_init_burst sampleMtcp boot 0 0 0 0 0 0 (by decide) (by decide)

/-! ## Buttons -/

theorem tux_buttons_valid (s : Driver) (dest : Nat) (h : dest ≠ 0) :
    tux_buttons s dest =
      ({ state := { s with tux_lock := false }, sent := [], ret := 0 },
        some (button_word s.buttons_pressed)) := by
  unfold tux_buttons button_word spin_unlock_irqrestore spin_lock_irqsave
  simp [h]

set_option maxRecDepth 1000000 in
theorem button_word_bits : ∀ n, n < 256 →
    button_word n = (((button_word n).toNat : Nat) : Int) ∧ (button_word n).toNat < 256 ∧
    ∀ i, i < 8 → (button_word n).toNat.testBit i = n.testBit (swapped_bit i) := by
  decide

set_option maxRecDepth 1000000 in
theorem nibble_concat_small : ∀ x, x < 16 → ∀ y, y < 16 →
    ((x <<< 4) + y) % 2 ^ 32 = (x <<< 4) ||| y ∧ (x <<< 4) ||| y < 256 := by
  decide

theorem handle_bioc (K : Mtcp) (s : Driver) (b c : Nat) :
    tuxctl_handle_packet K s K.MTCP_BIOC_EVENT b c =
      ({ s with buttons_pressed := (((c &&& 0xF) <<< 4) + (b &&& 0xF)) % 2 ^ 32 }, []) := by
  unfold tuxctl_handle_packet
  rw [if_pos rfl]
  rfl

theorem nibble_concat (b c : Nat) :
    (((c &&& 0xF) <<< 4) + (b &&& 0xF)) % 2 ^ 32 = ((c &&& 0xF) <<< 4) ||| (b &&& 0xF) ∧
    ((c &&& 0xF) <<< 4) ||| (b &&& 0xF) < 256 :=
  nibble_concat_small (c &&& 0xF) (Nat.lt_of_le_of_lt Nat.and_le_right (by norm_num))
    (b &&& 0xF) (Nat.lt_of_le_of_lt Nat.and_le_right (by norm_num))

/-- C5: after a button-event packet with payload bytes `b` and `c`,
`tux_buttons` with a valid destination returns 0 and stores a value below 256
whose bits 5 and 6 are bits 6 and 5 of the nibble concatenation
`((c & 0xF) << 4) | (b & 0xF)`, all other bits being those of the
concatenation. -/
theorem C5_buttons_swapped (K : Mtcp) (s : Driver) (b c dest : Nat) (hdest : dest ≠ 0) :
    (tux_buttons (tuxctl_handle_packet K s K.MTCP_BIOC_EVENT b c).1 dest).1.ret = 0 ∧
    ∃ v : Nat,
      (tux_buttons (tuxctl_handle_packet K s K.MTCP_BIOC_EVENT b c).1 dest).2 = some (v : Int) ∧
      v < 256 ∧
      v.testBit 5 = (((c &&& 0xF) <<< 4) ||| (b &&& 0xF)).testBit 6 ∧
      v.testBit 6 = (((c &&& 0xF) <<< 4) ||| (b &&& 0xF)).testBit 5 ∧
      ∀ i, i ≠ 5 → i ≠ 6 → v.testBit i = (((c &&& 0xF) <<< 4) ||| (b &&& 0xF)).testBit i := by
  obtain ⟨e, hn⟩ := nibble_concat b c
  obtain ⟨h1, h2, h3⟩ := button_word_bits _ hn
  rw [handle_bioc, tux_buttons_valid _ _ hdest]
  refine ⟨rfl, (button_word (((c &&& 0xF) <<< 4) ||| (b &&& 0xF))).toNat, ?_, h2, ?_, ?_, ?_⟩
  · show some (button_word _) = _
    rw [e, ← h1]
  · exact h3 5 (by norm_num)
  · exact h3 6 (by norm_num)
  · intro i h5 h6
    by_cases hi : i < 8
    · rw [h3 i hi, swapped_bit, if_neg h5, if_neg h6]
    · have hp : (256 : Nat) ≤ 2 ^ i := by
        calc (256 : Nat) = 2 ^ 8 := by norm_num
          _ ≤ 2 ^ i := Nat.pow_le_pow_right (by norm_num) (by omega)
      rw [Nat.testBit_lt_two_pow (Nat.lt_of_lt_of_le h2 hp),
        Nat.testBit_lt_two_pow (Nat.lt_of_lt_of_le hn hp)]

/-- C5 at the sample opcodes: payload `0xAB`, `0xCD` from the fresh state. -/
theorem C5_buttons_swapped_witness :
    (tux_buttons (tuxctl_handle_packet sampleMtcp boot sampleMtcp.MTCP_BIOC_EVENT 0xAB 0xCD).1
      1).1.ret = 0 ∧
    ∃ v : Nat,
      (tux_buttons (tuxctl_handle_packet sampleMtcp boot sampleMtcp.MTCP_BIOC_EVENT 0xAB 0xCD).1
        1).2 = some (v : Int) ∧
      v < 256 ∧
      v.testBit 5 = (((0xCD &&& 0xF) <<< 4) ||| (0xAB &&& 0xF)).testBit 6 ∧
      v.testBit 6 = (((0xCD &&& 0xF) <<< 4) ||| (0xAB &&& 0xF)).testBit 5 ∧
      ∀ i, i ≠ 5 → i ≠ 6 → v.testBit i = (((0xCD &&& 0xF) <<< 4) ||| (0xAB &&& 0xF)).testBit i :=
  C5_buttons_swapped sampleMtcp boot 0xAB 0xCD 1 (by decide)

/-! ## Runs -/

theorem run_nil (K : Mtcp) (s : Driver) : run K s [] = (s, []) := rfl

theorem run_cons (K : Mtcp) (s : Driver) (e : Event) (es : List Event) :
    run K s (e :: es) =
      ((run K (step K s e).1 es).1, (step K s e).2 ++ (run K (step K s e).1 es).2) := rfl

theorem step_init (K : Mtcp) (s : Driver) :
    step K s Event.init = ((tux_init K s).state, (tux_init K s).sent) := rfl

theorem step_set_led (K : Mtcp) (s : Driver) (arg : Nat) :
    step K s (Event.set_led arg) = ((tux_set_led K s arg).state, (tux_set_led K s arg).sent) := rfl

theorem step_packet (K : Mtcp) (s : Driver) (a b c : Nat) :
    step K s (Event.packet a b c) = tuxctl_handle_packet K s a b c := rfl

theorem led_frame_length (K : Mtcp) (lc : Nat → Nat) (arg : Nat) :
    2 ≤ (led_frame K lc arg).length := by
  rw [led_frame_spec]
  simp

theorem after_init_eq (K : Mtcp) (s : Driver) (hD : K.InboundDistinct) :
    after_init K s =
      { tux_lock := s.tux_lock
        buttons_pressed := 0
        command := Function.update (Function.update (Function.update s.command
          0 (K.MTCP_RESET_DEV % 256)) 1 (K.MTCP_LED_USR % 256)) 2 (K.MTCP_BIOC_ON % 256)
        led_command := (led_build K s.led_command 0).led_command
        track := 3
        cmd_end := 3
        last_led := 0
        enable_flag := 0
        is_resetting := 0 } := by
  have hA := hD.1
  unfold after_init
  simp [run_cons, run_nil, step_init, step_packet, tux_init_eq, handle_ack K _ _ _ hA]

/-- C4, as the code behaves: in the idle state reached by `tux_init` and three
acknowledgments, a further acknowledgment packet is not ignored.  The handler
advances `track` past `cmd_end`, transmits the stale byte `command[4]` as a
frame and marks the pipeline as in flight. -/
theorem C4_ack_while_idle_transmits (K : Mtcp) (s : Driver) (b c : Nat)
    (hD : K.InboundDistinct) :
    (after_init K s).enable_flag = 0 ∧
    (after_init K s).track = 3 ∧
    (tuxctl_handle_packet K (after_init K s) K.MTCP_ACK b c).2 = [[s.command 4]] ∧
    (tuxctl_handle_packet K (after_init K s) K.MTCP_ACK b c).1.track = 4 ∧
    (tuxctl_handle_packet K (after_init K s) K.MTCP_ACK b c).1.enable_flag = 1 ∧
    (tuxctl_handle_packet K (after_init K s) K.MTCP_ACK b c).1 ≠ after_init K s := by
  rw [after_init_eq K s hD, handle_ack_more K _ b c hD.1 (by simp)]
  refine ⟨rfl, rfl, ?_, rfl, rfl, ?_⟩
  · simp [Function.update]
  · intro h
    have := congrArg Driver.track h
    simp at this

/-- C4 evaluated from the freshly loaded module with the sample opcodes. -/
theorem C4_ack_while_idle_transmits_witness :
    (after_init sampleMtcp boot).enable_flag = 0 ∧
    (after_init sampleMtcp boot).track = 3 ∧
    (tuxctl_handle_packet sampleMtcp (after_init sampleMtcp boot) sampleMtcp.MTCP_ACK 0 0).2
      = [[boot.command 4]] ∧
    (tuxctl_handle_packet sampleMtcp (after_init sampleMtcp boot) sampleMtcp.MTCP_ACK 0 0).1.track
      = 4 ∧
    (tuxctl_handle_packet sampleMtcp (after_init sampleMtcp boot)
      sampleMtcp.MTCP_ACK 0 0).1.enable_flag = 1 ∧
    (tuxctl_handle_packet sampleMtcp (after_init sampleMtcp boot) sampleMtcp.MTCP_ACK 0 0).1
      ≠ after_init sampleMtcp boot :=
  C4_ack_while_idle_transmits sampleMtcp boot 0 0 (by decide)

/-- C6, as the code behaves: a reset notification right after `tux_init` makes
the driver hand two more frames to the link although no acknowledgment has been
handled, so three frames have been transmitted against zero acknowledgments. -/
theorem C6_reset_overruns_in_flight (K : Mtcp) (s : Driver) (b c : Nat)
    (hD : K.InboundDistinct) :
    (run K s [Event.init, Event.packet K.MTCP_RESET b c]).2 =
      [[K.MTCP_RESET_DEV % 256], [K.MTCP_RESET_DEV % 256], [K.MTCP_LED_USR % 256]] ∧
    acks K [Event.init, Event.packet K.MTCP_RESET b c] = 0 ∧
    ¬ ((run K s [Event.init, Event.packet K.MTCP_RESET b c]).2.length
        ≤ 1 + acks K [Event.init, Event.packet K.MTCP_RESET b c]) := by
  have hacks : acks K [Event.init, Event.packet K.MTCP_RESET b c] = 0 := by
    simp [acks, is_ack, Ne.symm hD.2.2]
  have hrun : (run K s [Event.init, Event.packet K.MTCP_RESET b c]).2 =
      [[K.MTCP_RESET_DEV % 256], [K.MTCP_RESET_DEV % 256], [K.MTCP_LED_USR % 256]] := by
    simp only [run_cons, run_nil, step_init, step_packet, tux_init_eq, handle_reset K _ b c hD]
    rw [reset_armed K _ rfl]
    rfl
  refine ⟨hrun, hacks, ?_⟩
  rw [hrun, hacks]
  simp

/-- C6 evaluated from the freshly loaded module with the sample opcodes. -/
theorem C6_reset_overruns_in_flight_witness :
    (run sampleMtcp boot [Event.init, Event.packet sampleMtcp.MTCP_RESET 0 0]).2 =
      [[sampleMtcp.MTCP_RESET_DEV % 256], [sampleMtcp.MTCP_RESET_DEV % 256],
        [sampleMtcp.MTCP_LED_USR % 256]] ∧
    acks sampleMtcp [Event.init, Event.packet sampleMtcp.MTCP_RESET 0 0] = 0 ∧
    ¬ ((run sampleMtcp boot [Event.init, Event.packet sampleMtcp.MTCP_RESET 0 0]).2.length
        ≤ 1 + acks sampleMtcp [Event.init, Event.packet sampleMtcp.MTCP_RESET 0 0]) :=
  C6_reset_overruns_in_flight sampleMtcp boot 0 0 (by decide)

/-- C7 fails: from the freshly loaded module, `tux_init`, the display requests
"1234" and "5678" and three acknowledgments transmit the initialization burst
only; the frame that encodes "5678" does not follow it. -/
theorem C7_second_request_not_sent :
    ¬ ((run sampleMtcp boot
          [Event.init, Event.set_led 0x000F4321, Event.set_led 0x000F8765,
           Event.packet sampleMtcp.MTCP_ACK 0 0, Event.packet sampleMtcp.MTCP_ACK 0 0,
           Event.packet sampleMtcp.MTCP_ACK 0 0]).2
        = [[sampleMtcp.MTCP_RESET_DEV], [sampleMtcp.MTCP_LED_USR], [sampleMtcp.MTCP_BIOC_ON],
            led_frame sampleMtcp boot.led_command 0x000F8765]) := by
  decide

/-- C7 as amended: after `tux_init` and two display requests with no
acknowledgment in between, the three acknowledgments that bring the pipeline
back to idle complete the initialization burst and nothing else is transmitted;
neither request is encoded onto the link or recorded as the last display. -/
theorem C7_requests_while_busy_dropped (K : Mtcp) (s : Driver) (A B : Nat)
    (hK : K.OutboundBytes) (hD : K.InboundDistinct) :
    (run K s [Event.init, Event.set_led A, Event.set_led B]).2 = [[K.MTCP_RESET_DEV]] ∧
    (run K s [Event.init, Event.set_led A, Event.set_led B]).1.enable_flag = 1 ∧
    (run K s [Event.init, Event.set_led A, Event.set_led B,
      Event.packet K.MTCP_ACK 0 0]).1.enable_flag = 1 ∧
    (run K s [Event.init, Event.set_led A, Event.set_led B,
      Event.packet K.MTCP_ACK 0 0, Event.packet K.MTCP_ACK 0 0]).1.enable_flag = 1 ∧
    (run K s [Event.init, Event.set_led A, Event.set_led B,
      Event.packet K.MTCP_ACK 0 0, Event.packet K.MTCP_ACK 0 0,
      Event.packet K.MTCP_ACK 0 0]).1.enable_flag = 0 ∧
    (run K s [Event.init, Event.set_led A, Event.set_led B,
      Event.packet K.MTCP_ACK 0 0, Event.packet K.MTCP_ACK 0 0,
      Event.packet K.MTCP_ACK 0 0]).2
        = [[K.MTCP_RESET_DEV], [K.MTCP_LED_USR], [K.MTCP_BIOC_ON]] ∧
    (run K s [Event.init, Event.set_led A, Event.set_led B,
      Event.packet K.MTCP_ACK 0 0, Event.packet K.MTCP_ACK 0 0,
      Event.packet K.MTCP_ACK 0 0]).1.last_led = 0 ∧
    (∀ lc arg, led_frame K lc arg ∉ [[K.MTCP_RESET_DEV], [K.MTCP_LED_USR], [K.MTCP_BIOC_ON]]) := by
  obtain ⟨k1, k2, k3, _⟩ := hK
  have hA := hD.1
  have hlen : ∀ lc arg, led_frame K lc arg ∉
      [[K.MTCP_RESET_DEV], [K.MTCP_LED_USR], [K.MTCP_BIOC_ON]] := by
    intro lc arg hmem
    have h2 := led_frame_length K lc arg
    simp only [List.mem_cons, List.mem_singleton, List.not_mem_nil, or_false] at hmem
    rcases hmem with h | h | h <;> rw [h] at h2 <;> simp at h2
  refine ⟨?_, ?_, ?_, ?_, ?_, ?_, ?_, hlen⟩ <;>
    simp [run_cons, run_nil, step_init, step_set_led, step_packet, tux_init_eq,
      tux_set_led_busy, handle_ack K _ _ _ hA, Function.update, Nat.mod_eq_of_lt, k1, k2, k3]

/-- C7 as amended, at the sample opcodes from the freshly loaded module. -/
theorem C7_requests_while_busy_dropped_witness :
    (run sampleMtcp boot [Event.init, Event.set_led 0x000F4321, Event.set_led 0x000F8765]).2
      = [[sampleMtcp.MTCP_RESET_DEV]] ∧
    (run sampleMtcp boot
      [Event.init, Event.set_led 0x000F4321, Event.set_led 0x000F8765]).1.enable_flag = 1 ∧
    (run sampleMtcp boot [Event.init, Event.set_led 0x000F4321, Event.set_led 0x000F8765,
      Event.packet sampleMtcp.MTCP_ACK 0 0]).1.enable_flag = 1 ∧
    (run sampleMtcp boot [Event.init, Event.set_led 0x000F4321, Event.set_led 0x000F8765,
      Event.packet sampleMtcp.MTCP_ACK 0 0, Event.packet sampleMtcp.MTCP_ACK 0 0]).1.enable_flag
      = 1 ∧
    (run sampleMtcp boot [Event.init, Event.set_led 0x000F4321, Event.set_led 0x000F8765,
      Event.packet sampleMtcp.MTCP_ACK 0 0, Event.packet sampleMtcp.MTCP_ACK 0 0,
      Event.packet sampleMtcp.MTCP_ACK 0 0]).1.enable_flag = 0 ∧
    (run sampleMtcp boot [Event.init, Event.set_led 0x000F4321, Event.set_led 0x000F8765,
      Event.packet sampleMtcp.MTCP_ACK 0 0, Event.packet sampleMtcp.MTCP_ACK 0 0,
      Event.packet sampleMtcp.MTCP_ACK 0 0]).2
        = [[sampleMtcp.MTCP_RESET_DEV], [sampleMtcp.MTCP_LED_USR], [sampleMtcp.MTCP_BIOC_ON]] ∧
    (run sampleMtcp boot [Event.init, Event.set_led 0x000F4321, Event.set_led 0x000F8765,
      Event.packet sampleMtcp.MTCP_ACK 0 0, Event.packet sampleMtcp.MTCP_ACK 0 0,
      Event.packet sampleMtcp.MTCP_ACK 0 0]).1.last_led = 0 ∧
    (∀ lc arg, led_frame sampleMtcp lc arg ∉
      [[sampleMtcp.MTCP_RESET_DEV], [sampleMtcp.MTCP_LED_USR], [sampleMtcp.MTCP_BIOC_ON]]) :=
  C7_requests_while_busy_dropped sampleMtcp boot 0x000F4321 0x000F8765 (by decide) (by decide)

/-- C8: a reset notification that finds the coordinator armed sets
`is_resetting` to 1, clears the button mask, and re-issues the initialization
burst: the call and the acknowledgments that follow transmit `[MTCP_RESET_DEV]`,
`[MTCP_LED_USR]` and `[MTCP_BIOC_ON]`, in that order and once each, after which
the pipeline is idle. -/
theorem C8_first_reset_notification (K : Mtcp) (s : Driver) (b c : Nat)
    (hK : K.OutboundBytes) (hD : K.InboundDistinct) (h : s.is_resetting = 0) :
    (tuxctl_handle_packet K s K.MTCP_RESET b c).1.is_resetting = 1 ∧
    (tuxctl_handle_packet K s K.MTCP_RESET b c).1.buttons_pressed = 0 ∧
    (tuxctl_handle_packet K s K.MTCP_RESET b c).2 = [[K.MTCP_RESET_DEV], [K.MTCP_LED_USR]] ∧
    (run K s [Event.packet K.MTCP_RESET b c, Event.packet K.MTCP_ACK 0 0]).2
      = [[K.MTCP_RESET_DEV], [K.MTCP_LED_USR], [K.MTCP_BIOC_ON]] ∧
    (run K s [Event.packet K.MTCP_RESET b c, Event.packet K.MTCP_ACK 0 0]).1.enable_flag = 1 ∧
    (run K s [Event.packet K.MTCP_RESET b c, Event.packet K.MTCP_ACK 0 0,
      Event.packet K.MTCP_ACK 0 0]).2
      = [[K.MTCP_RESET_DEV], [K.MTCP_LED_USR], [K.MTCP_BIOC_ON]] ∧
    (run K s [Event.packet K.MTCP_RESET b c, Event.packet K.MTCP_ACK 0 0,
      Event.packet K.MTCP_ACK 0 0]).1.enable_flag = 0 := by
  obtain ⟨k1, k2, k3, _⟩ := hK
  have hA := hD.1
  refine ⟨?_, ?_, ?_, ?_, ?_, ?_, ?_⟩ <;>
    simp [run_cons, run_nil, step_packet, handle_reset K _ _ _ hD, reset_armed K _ h,
      handle_ack K _ _ _ hA, Function.update, Nat.mod_eq_of_lt, k1, k2, k3]

/-- C8 at the sample opcodes, from the idle state after initialization. -/
theorem C8_first_reset_notification_witness :
    (tuxctl_handle_packet sampleMtcp (after_init sampleMtcp boot)
      sampleMtcp.MTCP_RESET 0 0).1.is_resetting = 1 ∧
    (tuxctl_handle_packet sampleMtcp (after_init sampleMtcp boot)
      sampleMtcp.MTCP_RESET 0 0).1.buttons_pressed = 0 ∧
    (tuxctl_handle_packet sampleMtcp (after_init sampleMtcp boot) sampleMtcp.MTCP_RESET 0 0).2
      = [[sampleMtcp.MTCP_RESET_DEV], [sampleMtcp.MTCP_LED_USR]] ∧
    (run sampleMtcp (after_init sampleMtcp boot)
      [Event.packet sampleMtcp.MTCP_RESET 0 0, Event.packet sampleMtcp.MTCP_ACK 0 0]).2
      = [[sampleMtcp.MTCP_RESET_DEV], [sampleMtcp.MTCP_LED_USR], [sampleMtcp.MTCP_BIOC_ON]] ∧
    (run sampleMtcp (after_init sampleMtcp boot)
      [Event.packet sampleMtcp.MTCP_RESET 0 0,
        Event.packet sampleMtcp.MTCP_ACK 0 0]).1.enable_flag = 1 ∧
    (run sampleMtcp (after_init sampleMtcp boot)
      [Event.packet sampleMtcp.MTCP_RESET 0 0, Event.packet sampleMtcp.MTCP_ACK 0 0,
        Event.packet sampleMtcp.MTCP_ACK 0 0]).2
      = [[sampleMtcp.MTCP_RESET_DEV], [sampleMtcp.MTCP_LED_USR], [sampleMtcp.MTCP_BIOC_ON]] ∧
    (run sampleMtcp (after_init sampleMtcp boot)
      [Event.packet sampleMtcp.MTCP_RESET 0 0, Event.packet sampleMtcp.MTCP_ACK 0 0,
        Event.packet sampleMtcp.MTCP_ACK 0 0]).1.enable_flag = 0 :=
  C8_first_reset_notification sampleMtcp (after_init sampleMtcp boot) 0 0
    (by decide) (by decide) (by decide)

/-- C9, as the code behaves: the display request `A` is transmitted when it is
issued in the idle state after initialization and is recorded in `last_led`,
but after a reset notification the driver, once idle again, has transmitted the
initialization burst only: `reset` calls `tux_set_led` on `last_led` while its
own frame is in flight, so the display frame is built and never sent. -/
theorem C9_display_lost_on_reset (K : Mtcp) (s : Driver) (A : Nat)
    (hK : K.OutboundBytes) (hD : K.InboundDistinct) :
    (run K (after_init K s) [Event.set_led A]).2
      = [led_frame K (after_init K s).led_command A] ∧
    (run K (after_init K s) [Event.set_led A, Event.packet K.MTCP_ACK 0 0,
      Event.packet K.MTCP_ACK 0 0, Event.packet K.MTCP_ACK 0 0]).1.enable_flag = 0 ∧
    (run K (after_init K s) [Event.set_led A, Event.packet K.MTCP_ACK 0 0,
      Event.packet K.MTCP_ACK 0 0, Event.packet K.MTCP_ACK 0 0]).1.last_led = A % 2 ^ 32 ∧
    (run K (after_init K s) [Event.set_led A, Event.packet K.MTCP_ACK 0 0,
      Event.packet K.MTCP_ACK 0 0, Event.packet K.MTCP_ACK 0 0]).1.is_resetting = 0 ∧
    (run K (run K (after_init K s) [Event.set_led A, Event.packet K.MTCP_ACK 0 0,
        Event.packet K.MTCP_ACK 0 0, Event.packet K.MTCP_ACK 0 0]).1
      [Event.packet K.MTCP_RESET 0 0, Event.packet K.MTCP_ACK 0 0,
        Event.packet K.MTCP_ACK 0 0]).2
      = [[K.MTCP_RESET_DEV], [K.MTCP_LED_USR], [K.MTCP_BIOC_ON]] ∧
    (run K (run K (after_init K s) [Event.set_led A, Event.packet K.MTCP_ACK 0 0,
        Event.packet K.MTCP_ACK 0 0, Event.packet K.MTCP_ACK 0 0]).1
      [Event.packet K.MTCP_RESET 0 0, Event.packet K.MTCP_ACK 0 0,
        Event.packet K.MTCP_ACK 0 0]).1.enable_flag = 0 ∧
    (∀ lc, led_frame K lc A ∉ [[K.MTCP_RESET_DEV], [K.MTCP_LED_USR], [K.MTCP_BIOC_ON]]) := by
  obtain ⟨k1, k2, k3, _⟩ := hK
  have hA := hD.1
  have hlen : ∀ lc, led_frame K lc A ∉
      [[K.MTCP_RESET_DEV], [K.MTCP_LED_USR], [K.MTCP_BIOC_ON]] := by
    intro lc hmem
    have h2 := led_frame_length K lc A
    simp only [List.mem_cons, List.mem_singleton, List.not_mem_nil, or_false] at hmem
    rcases hmem with h | h | h <;> rw [h] at h2 <;> simp at h2
  rw [after_init_eq K s hD]
  refine ⟨?_, ?_, ?_, ?_, ?_, ?_, hlen⟩ <;>
    simp [run_cons, run_nil, step_packet, step_set_led, tux_set_led_idle,
      handle_reset K _ _ _ hD, reset_armed,
      handle_ack K _ _ _ hA, Function.update, Nat.mod_eq_of_lt, k1, k2, k3]

/-- C9 evaluated at the sample opcodes for the request "1234", from the freshly
loaded module. -/
theorem C9_display_lost_on_reset_witness :
    (run sampleMtcp (after_init sampleMtcp boot) [Event.set_led 0x000F4321]).2
      = [led_frame sampleMtcp (after_init sampleMtcp boot).led_command 0x000F4321] ∧
    (run sampleMtcp (after_init sampleMtcp boot)
      [Event.set_led 0x000F4321, Event.packet sampleMtcp.MTCP_ACK 0 0,
        Event.packet sampleMtcp.MTCP_ACK 0 0,
        Event.packet sampleMtcp.MTCP_ACK 0 0]).1.enable_flag = 0 ∧
    (run sampleMtcp (after_init sampleMtcp boot)
      [Event.set_led 0x000F4321, Event.packet sampleMtcp.MTCP_ACK 0 0,
        Event.packet sampleMtcp.MTCP_ACK 0 0,
        Event.packet sampleMtcp.MTCP_ACK 0 0]).1.last_led = 0x000F4321 % 2 ^ 32 ∧
    (run sampleMtcp (after_init sampleMtcp boot)
      [Event.set_led 0x000F4321, Event.packet sampleMtcp.MTCP_ACK 0 0,
        Event.packet sampleMtcp.MTCP_ACK 0 0,
        Event.packet sampleMtcp.MTCP_ACK 0 0]).1.is_resetting = 0 ∧
    (run sampleMtcp (run sampleMtcp (after_init sampleMtcp boot)
        [Event.set_led 0x000F4321, Event.packet sampleMtcp.MTCP_ACK 0 0,
          Event.packet sampleMtcp.MTCP_ACK 0 0, Event.packet sampleMtcp.MTCP_ACK 0 0]).1
      [Event.packet sampleMtcp.MTCP_RESET 0 0, Event.packet sampleMtcp.MTCP_ACK 0 0,
        Event.packet sampleMtcp.MTCP_ACK 0 0]).2
      = [[sampleMtcp.MTCP_RESET_DEV], [sampleMtcp.MTCP_LED_USR], [sampleMtcp.MTCP_BIOC_ON]] ∧
    (run sampleMtcp (run sampleMtcp (after_init sampleMtcp boot)
        [Event.set_led 0x000F4321, Event.packet sampleMtcp.MTCP_ACK 0 0,
          Event.packet sampleMtcp.MTCP_ACK 0 0, Event.packet sampleMtcp.MTCP_ACK 0 0]).1
      [Event.packet sampleMtcp.MTCP_RESET 0 0, Event.packet sampleMtcp.MTCP_ACK 0 0,
        Event.packet sampleMtcp.MTCP_ACK 0 0]).1.enable_flag = 0 ∧
    (∀ lc, led_frame sampleMtcp lc 0x000F4321 ∉
      [[sampleMtcp.MTCP_RESET_DEV], [sampleMtcp.MTCP_LED_USR], [sampleMtcp.MTCP_BIOC_ON]]) :=
  C9_display_lost_on_reset sampleMtcp boot 0x000F4321 (by decide) (by decide)

/-- C10: a reset notification that finds the coordinator in progress
(`is_resetting = 1`) only sets `is_resetting` back to 0: nothing is transmitted
and every other part of the state is unchanged.  Hence two consecutive
notifications from the armed state transmit the two frames of the first one,
the reset-device command among them once. -/
theorem C10_second_reset_notification (K : Mtcp) (t s : Driver) (b c b1 c1 : Nat)
    (hK : K.OutboundBytes) (hD : K.InboundDistinct) (hne : K.MTCP_LED_USR ≠ K.MTCP_RESET_DEV)
    (ht : t.is_resetting = 1) (hs : s.is_resetting = 0) :
    tuxctl_handle_packet K t K.MTCP_RESET b c = ({ t with is_resetting := 0 }, []) ∧
    (run K s [Event.packet K.MTCP_RESET b c, Event.packet K.MTCP_RESET b1 c1]).2
      = [[K.MTCP_RESET_DEV], [K.MTCP_LED_USR]] ∧
    (run K s [Event.packet K.MTCP_RESET b c, Event.packet K.MTCP_RESET b1 c1]).2.count
      [K.MTCP_RESET_DEV] = 1 ∧
    (run K s [Event.packet K.MTCP_RESET b c, Event.packet K.MTCP_RESET b1 c1]).1
      = { (tuxctl_handle_packet K s K.MTCP_RESET b c).1 with is_resetting := 0 } := by
  obtain ⟨k1, k2, k3, _⟩ := hK
  have ht0 : t.is_resetting ≠ 0 := by rw [ht]; decide
  have hrun : (run K s [Event.packet K.MTCP_RESET b c, Event.packet K.MTCP_RESET b1 c1]).2
      = [[K.MTCP_RESET_DEV], [K.MTCP_LED_USR]] := by
    simp [run_cons, run_nil, step_packet, handle_reset K _ _ _ hD, reset_armed K _ hs,
      reset_in_progress, Nat.mod_eq_of_lt, k1, k2]
  refine ⟨?_, hrun, ?_, ?_⟩
  · rw [handle_reset K _ _ _ hD, reset_in_progress K t ht0]
  · rw [hrun]
    simp [List.count_cons, hne]
  · simp [run_cons, run_nil, step_packet, handle_reset K _ _ _ hD, reset_armed K _ hs,
      reset_in_progress]

/-- C10 at the sample opcodes: the second notification is handled in the state
the first one leaves, the pair is delivered to the freshly loaded module. -/
theorem C10_second_reset_notification_witness :
    tuxctl_handle_packet sampleMtcp
        (tuxctl_handle_packet sampleMtcp boot sampleMtcp.MTCP_RESET 0 0).1
        sampleMtcp.MTCP_RESET 0 0
      = ({ (tuxctl_handle_packet sampleMtcp boot sampleMtcp.MTCP_RESET 0 0).1 with
            is_resetting := 0 }, []) ∧
    (run sampleMtcp boot
      [Event.packet sampleMtcp.MTCP_RESET 0 0, Event.packet sampleMtcp.MTCP_RESET 0 0]).2
      = [[sampleMtcp.MTCP_RESET_DEV], [sampleMtcp.MTCP_LED_USR]] ∧
    (run sampleMtcp boot
      [Event.packet sampleMtcp.MTCP_RESET 0 0, Event.packet sampleMtcp.MTCP_RESET 0 0]).2.count
      [sampleMtcp.MTCP_RESET_DEV] = 1 ∧
    (run sampleMtcp boot
      [Event.packet sampleMtcp.MTCP_RESET 0 0, Event.packet sampleMtcp.MTCP_RESET 0 0]).1
      = { (tuxctl_handle_packet sampleMtcp boot sampleMtcp.MTCP_RESET 0 0).1 with
          is_resetting := 0 } :=
  C10_second_reset_notification sampleMtcp
    (tuxctl_handle_packet sampleMtcp boot sampleMtcp.MTCP_RESET 0 0).1 boot 0 0 0 0
    (by decide) (by decide) (by decide) (by decide) (by decide)

/-! ## Further cases of the packet handler -/

theorem handle_unknown (K : Mtcp) (s : Driver) (a b c : Nat)
    (h1 : a ≠ K.MTCP_BIOC_EVENT) (h2 : a ≠ K.MTCP_ACK) (h3 : a ≠ K.MTCP_RESET) :
    tuxctl_handle_packet K s a b c = (s, []) := by
  unfold tuxctl_handle_packet
  rw [if_neg h1, if_neg h2, if_neg h3]

theorem button_word_zero : button_word 0 = 0 := by decide

/-- C11, as the code behaves: a display request issued in the idle state after
initialization is transmitted, but the acknowledgment of its frame does not
return the pipeline to idle.  `tux_set_led` resets `track` to 0 and leaves
`cmd_end` at 3, so the next two acknowledgments transmit `[MTCP_LED_USR]` and
`[MTCP_BIOC_ON]` again and only the third leaves the pipeline idle. -/
theorem C11_display_ack_resends_burst (K : Mtcp) (s : Driver) (A : Nat)
    (hK : K.OutboundBytes) (hD : K.InboundDistinct) :
    (after_init K s).enable_flag = 0 ∧
    (run K (after_init K s) [Event.set_led A]).2
      = [led_frame K (after_init K s).led_command A] ∧
    (run K (after_init K s) [Event.set_led A]).1.enable_flag = 1 ∧
    (run K (after_init K s) [Event.set_led A, Event.packet K.MTCP_ACK 0 0]).2
      = [led_frame K (after_init K s).led_command A, [K.MTCP_LED_USR]] ∧
    (run K (after_init K s) [Event.set_led A, Event.packet K.MTCP_ACK 0 0]).1.enable_flag = 1 ∧
    (run K (after_init K s) [Event.set_led A, Event.packet K.MTCP_ACK 0 0,
      Event.packet K.MTCP_ACK 0 0]).2
      = [led_frame K (after_init K s).led_command A, [K.MTCP_LED_USR], [K.MTCP_BIOC_ON]] ∧
    (run K (after_init K s) [Event.set_led A, Event.packet K.MTCP_ACK 0 0,
      Event.packet K.MTCP_ACK 0 0]).1.enable_flag = 1 ∧
    (run K (after_init K s) [Event.set_led A, Event.packet K.MTCP_ACK 0 0,
      Event.packet K.MTCP_ACK 0 0, Event.packet K.MTCP_ACK 0 0]).2
      = [led_frame K (after_init K s).led_command A, [K.MTCP_LED_USR], [K.MTCP_BIOC_ON]] ∧
    (run K (after_init K s) [Event.set_led A, Event.packet K.MTCP_ACK 0 0,
      Event.packet K.MTCP_ACK 0 0, Event.packet K.MTCP_ACK 0 0]).1.enable_flag = 0 := by
  obtain ⟨k1, k2, k3, _⟩ := hK
  have hA := hD.1
  rw [after_init_eq K s hD]
  refine ⟨rfl, ?_, ?_, ?_, ?_, ?_, ?_, ?_, ?_⟩ <;>
    simp [run_cons, run_nil, step_packet, step_set_led, tux_set_led_idle,
      handle_ack K _ _ _ hA, Function.update, Nat.mod_eq_of_lt, k1, k2, k3]

/-- C11 evaluated at the sample opcodes for the request "1234", from the
freshly loaded module. -/
theorem C11_display_ack_resends_burst_witness :
    (after_init sampleMtcp boot).enable_flag = 0 ∧
    (run sampleMtcp (after_init sampleMtcp boot) [Event.set_led 0x000F4321]).2
      = [led_frame sampleMtcp (after_init sampleMtcp boot).led_command 0x000F4321] ∧
    (run sampleMtcp (after_init sampleMtcp boot) [Event.set_led 0x000F4321]).1.enable_flag = 1 ∧
    (run sampleMtcp (after_init sampleMtcp boot)
      [Event.set_led 0x000F4321, Event.packet sampleMtcp.MTCP_ACK 0 0]).2
      = [led_frame sampleMtcp (after_init sampleMtcp boot).led_command 0x000F4321,
          [sampleMtcp.MTCP_LED_USR]] ∧
    (run sampleMtcp (after_init sampleMtcp boot)
      [Event.set_led 0x000F4321, Event.packet sampleMtcp.MTCP_ACK 0 0]).1.enable_flag = 1 ∧
    (run sampleMtcp (after_init sampleMtcp boot)
      [Event.set_led 0x000F4321, Event.packet sampleMtcp.MTCP_ACK 0 0,
        Event.packet sampleMtcp.MTCP_ACK 0 0]).2
      = [led_frame sampleMtcp (after_init sampleMtcp boot).led_command 0x000F4321,
          [sampleMtcp.MTCP_LED_USR], [sampleMtcp.MTCP_BIOC_ON]] ∧
    (run sampleMtcp (after_init sampleMtcp boot)
      [Event.set_led 0x000F4321, Event.packet sampleMtcp.MTCP_ACK 0 0,
        Event.packet sampleMtcp.MTCP_ACK 0 0]).1.enable_flag = 1 ∧
    (run sampleMtcp (after_init sampleMtcp boot)
      [Event.set_led 0x000F4321, Event.packet sampleMtcp.MTCP_ACK 0 0,
        Event.packet sampleMtcp.MTCP_ACK 0 0, Event.packet sampleMtcp.MTCP_ACK 0 0]).2
      = [led_frame sampleMtcp (after_init sampleMtcp boot).led_command 0x000F4321,
          [sampleMtcp.MTCP_LED_USR], [sampleMtcp.MTCP_BIOC_ON]] ∧
    (run sampleMtcp (after_init sampleMtcp boot)
      [Event.set_led 0x000F4321, Event.packet sampleMtcp.MTCP_ACK 0 0,
        Event.packet sampleMtcp.MTCP_ACK 0 0, Event.packet sampleMtcp.MTCP_ACK 0 0]).1.enable_flag
      = 0 :=
  C11_display_ack_resends_burst sampleMtcp boot 0x000F4321 (by decide) (by decide)

/-- C12 fails: in the freshly loaded module, `tux_buttons` with a valid
destination does not report a failure; it returns 0 and stores the value 0. -/
theorem C12_buttons_before_init_succeed :
    (tux_buttons boot 1).1.ret = 0 ∧ (tux_buttons boot 1).2 = some 0 := by
  decide

/-- C12 as amended: in the freshly loaded module, `tux_buttons` with a valid
destination returns 0, the same result as after initialization, and stores the
zero-initialised mask, the value 0; it transmits nothing and leaves the lock
released. -/
theorem C12_buttons_before_init (dest : Nat) (hdest : dest ≠ 0) :
    (tux_buttons boot dest).1.ret = 0 ∧
    (tux_buttons boot dest).2 = some 0 ∧
    (tux_buttons boot dest).1.sent = [] ∧
    (tux_buttons boot dest).1.state = boot := by
  rw [tux_buttons_valid boot dest hdest]
  exact ⟨rfl, congrArg some button_word_zero, rfl, rfl⟩

/-- C12 as amended, at the destination address 1. -/
theorem C12_buttons_before_init_witness :
    (tux_buttons boot 1).1.ret = 0 ∧
    (tux_buttons boot 1).2 = some 0 ∧
    (tux_buttons boot 1).1.sent = [] ∧
    (tux_buttons boot 1).1.state = boot :=
  C12_buttons_before_init 1 (by decide)

theorem step_quiet_buttons (K : Mtcp) (hD : K.InboundDistinct) (s : Driver) (e : Event)
    (he : is_ack_or_unknown K e = true) :
    (step K s e).1.buttons_pressed = s.buttons_pressed := by
  cases e with
  | init => simp [is_ack_or_unknown] at he
  | set_led arg => simp [is_ack_or_unknown] at he
  | buttons arg => simp [is_ack_or_unknown] at he
  | packet a b c =>
    simp only [is_ack_or_unknown, Bool.or_eq_true, Bool.and_eq_true, decide_eq_true_eq] at he
    rw [step_packet]
    rcases he with h | ⟨⟨h1, h2⟩, h3⟩
    · rw [h, handle_ack K s b c hD.1]
      split <;> rfl
    · rw [handle_unknown K s a b c h1 h2 h3]

theorem run_quiet_buttons (K : Mtcp) (hD : K.InboundDistinct) (es : List Event) :
    ∀ s : Driver, (∀ e, e ∈ es → is_ack_or_unknown K e = true) →
      (run K s es).1.buttons_pressed = s.buttons_pressed := by
  induction es with
  | nil => intro s _; rfl
  | cons e es ih =>
    intro s h
    rw [run_cons]
    show (run K (step K s e).1 es).1.buttons_pressed = _
    rw [ih _ (fun x hx => h x (List.mem_cons_of_mem _ hx)),
      step_quiet_buttons K hD s e (h e (List.mem_cons_self _ _))]

/-- C13: from any state, after `tux_init` and any sequence of acknowledgment
packets and packets with an unknown opcode, `tux_buttons` with a valid
destination returns 0 and stores the mask that `tux_init` set, the value 0. -/
theorem C13_buttons_after_init (K : Mtcp) (s : Driver) (es : List Event) (dest : Nat)
    (hD : K.InboundDistinct) (hes : ∀ e, e ∈ es → is_ack_or_unknown K e = true)
    (hdest : dest ≠ 0) :
    (tux_buttons (run K s (Event.init :: es)).1 dest).1.ret = 0 ∧
    (tux_buttons (run K s (Event.init :: es)).1 dest).2 = some 0 ∧
    (run K s (Event.init :: es)).1.buttons_pressed = 0 := by
  have hb : (run K s (Event.init :: es)).1.buttons_pressed = 0 := by
    rw [run_cons]
    show (run K (step K s Event.init).1 es).1.buttons_pressed = 0
    rw [run_quiet_buttons K hD es _ hes, step_init, tux_init_eq]
  rw [tux_buttons_valid _ dest hdest]
  refine ⟨rfl, ?_, hb⟩
  show some (button_word _) = some 0
  rw [hb, button_word_zero]

/-- C13 at the sample opcodes: two acknowledgments and a packet with the
unknown opcode `0x55` after `tux_init`, from the freshly loaded module. -/
theorem C13_buttons_after_init_witness :
    (tux_buttons (run sampleMtcp boot (Event.init ::
      [Event.packet sampleMtcp.MTCP_ACK 0 0, Event.packet 0x55 1 2,
        Event.packet sampleMtcp.MTCP_ACK 0 0])).1 1).1.ret = 0 ∧
    (tux_buttons (run sampleMtcp boot (Event.init ::
      [Event.packet sampleMtcp.MTCP_ACK 0 0, Event.packet 0x55 1 2,
        Event.packet sampleMtcp.MTCP_ACK 0 0])).1 1).2 = some 0 ∧
    (run sampleMtcp boot (Event.init ::
      [Event.packet sampleMtcp.MTCP_ACK 0 0, Event.packet 0x55 1 2,
        Event.packet sampleMtcp.MTCP_ACK 0 0])).1.buttons_pressed = 0 :=
  C13_buttons_after_init sampleMtcp boot
    [Event.packet sampleMtcp.MTCP_ACK 0 0, Event.packet 0x55 1 2,
      Event.packet sampleMtcp.MTCP_ACK 0 0] 1 (by decide) (by decide) (by decide)

/-- C14: a packet whose opcode byte is none of `MTCP_BIOC_EVENT`, `MTCP_ACK`
and `MTCP_RESET` transmits nothing and leaves the whole driver state as it
was. -/
theorem C14_unknown_opcode_ignored (K : Mtcp) (s : Driver) (a b c : Nat)
    (h1 : a ≠ K.MTCP_BIOC_EVENT) (h2 : a ≠ K.MTCP_ACK) (h3 : a ≠ K.MTCP_RESET) :
    (tuxctl_handle_packet K s a b c).2 = [] ∧ (tuxctl_handle_packet K s a b c).1 = s := by
  rw [handle_unknown K s a b c h1 h2 h3]
  exact ⟨rfl, rfl⟩

/-- C14 at the sample opcodes, for the opcode `0x55` in the idle state after
initialization. -/
theorem C14_unknown_opcode_ignored_witness :
    (tuxctl_handle_packet sampleMtcp (after_init sampleMtcp boot) 0x55 1 2).2 = [] ∧
    (tuxctl_handle_packet sampleMtcp (after_init sampleMtcp boot) 0x55 1 2).1
      = after_init sampleMtcp boot :=
  C14_unknown_opcode_ignored sampleMtcp (after_init sampleMtcp boot) 0x55 1 2
    (by decide) (by decide) (by decide)

/-- C15, as the code behaves: `tux_buttons` called with a null destination
returns `-EINVAL` from inside its critical section, so the lock it has just
taken stays held, whereas its success path and the three other ioctls that
take the lock return with the lock released. -/
theorem C15_null_destination_keeps_lock (s : Driver) :
    (tux_buttons s 0).1.ret = -EINVAL ∧
    (tux_buttons s 0).1.state.tux_lock = true ∧
    (tux_buttons s 0).1.state = { s with tux_lock := true } ∧
    (∀ dest, dest ≠ 0 → (tux_buttons s dest).1.state.tux_lock = false) ∧
    (tux_led_ack s).state.tux_lock = false ∧
    (tux_led_request s).state.tux_lock = false ∧
    (tux_read_led s).state.tux_lock = false := by
  refine ⟨rfl, rfl, rfl, ?_, rfl, rfl, rfl⟩
  intro dest hdest
  rw [tux_buttons_valid s dest hdest]

/-- C16: `tux_set_led` returns 0 for every argument in every state; called
with the pipeline idle it transmits exactly one frame, the encoding of its
argument (header bytes followed by the segment bytes of the specification),
marks the pipeline as in flight and records the argument in `last_led`. -/
theorem C16_set_led_when_idle (K : Mtcp) (t s : Driver) (arg : Nat)
    (hK : K.MTCP_LED_SET < 256) (harg : arg < 2 ^ 32) (hidle : s.enable_flag = 0) :
    (tux_set_led K t arg).ret = 0 ∧
    (tux_set_led K s arg).ret = 0 ∧
    (tux_set_led K s arg).sent = [led_frame K s.led_command arg] ∧
    led_frame K s.led_command arg = [K.MTCP_LED_SET, enable_mask arg] ++ spec_segments arg ∧
    (tux_set_led K s arg).state.enable_flag = 1 ∧
    (tux_set_led K s arg).state.last_led = arg := by
  refine ⟨?_, ?_, ?_, ?_, ?_, ?_⟩
  · unfold tux_set_led
    by_cases h : t.enable_flag = 0 <;> simp [h]
  · rw [tux_set_led_idle K s arg hidle]
  · rw [tux_set_led_idle K s arg hidle]
  · rw [led_frame_spec, Nat.mod_eq_of_lt hK]
  · rw [tux_set_led_idle K s arg hidle]
  · rw [tux_set_led_idle K s arg hidle]
    exact Nat.mod_eq_of_lt harg

/-- C16 at the sample opcodes: the request "1234" in the idle state after
initialization; the first state is one with a frame in flight. -/
theorem C16_set_led_when_idle_witness :
    (tux_set_led sampleMtcp (tux_init sampleMtcp boot).state 0x000F4321).ret = 0 ∧
    (tux_set_led sampleMtcp (after_init sampleMtcp boot) 0x000F4321).ret = 0 ∧
    (tux_set_led sampleMtcp (after_init sampleMtcp boot) 0x000F4321).sent
      = [led_frame sampleMtcp (after_init sampleMtcp boot).led_command 0x000F4321] ∧
    led_frame sampleMtcp (after_init sampleMtcp boot).led_command 0x000F4321
      = [sampleMtcp.MTCP_LED_SET, enable_mask 0x000F4321] ++ spec_segments 0x000F4321 ∧
    (tux_set_led sampleMtcp (after_init sampleMtcp boot) 0x000F4321).state.enable_flag = 1 ∧
    (tux_set_led sampleMtcp (after_init sampleMtcp boot) 0x000F4321).state.last_led
      = 0x000F4321 :=
  C16_set_led_when_idle sampleMtcp (tux_init sampleMtcp boot).state (after_init sampleMtcp boot)
    0x000F4321 (by decide) (by decide) (by decide)

/-! ## What the encoded frame depends on -/

theorem field_testBit (a k i : Nat) :
    ((a >>> k) &&& 0xF).testBit i = (decide (i < 4) && a.testBit (k + i)) := by
  have f : (0xF : Nat) = 2 ^ 4 - 1 := by norm_num
  rw [Nat.testBit_and, Nat.testBit_shiftRight, f, Nat.testBit_two_pow_sub_one, Bool.and_comm]

theorem field_eq_of_bits (a b k : Nat)
    (h : ∀ i, i < 4 → a.testBit (k + i) = b.testBit (k + i)) :
    (a >>> k) &&& 0xF = (b >>> k) &&& 0xF := by
  apply Nat.eq_of_testBit_eq
  intro i
  rw [field_testBit, field_testBit]
  by_cases hi : i < 4
  · simp [hi, h i hi]
  · simp [hi]

theorem table_index_lt (x : Int) : (Int.land x display_mask).toNat < led_show.length := by
  have h : Int.land x display_mask = x % 16 := land_fifteen x
  rw [h]
  have h1 : 0 ≤ x % 16 := Int.emod_nonneg x (by norm_num)
  have h2 : x % 16 < 16 := Int.emod_lt_of_pos x (by norm_num)
  show (x % 16).toNat < 16
  omega

/-- C17: the frame `tux_set_led` builds depends only on the enable mask and on
the nibbles and decimal bits of the enabled digits: two arguments that agree on
bits 16 to 19 and, for every digit enabled there, on the nibble and the decimal
bit of that digit give the same frame, whatever `led_command` held before; and
the index into the segment table is always below its sixteen entries. -/
theorem C17_frame_depends_on_enabled (K : Mtcp) (lc lc2 : Nat → Nat) (a b : Nat)
    (hm : ∀ i, i < 4 → a.testBit (16 + i) = b.testBit (16 + i))
    (hd : ∀ i, i < 4 → a.testBit (16 + i) = true →
      digit_nibble a i = digit_nibble b i ∧ a.testBit (24 + i) = b.testBit (24 + i)) :
    led_frame K lc a = led_frame K lc2 b ∧
    (∀ x : Int, (Int.land x display_mask).toNat < led_show.length) := by
  have hmask : enable_mask a = enable_mask b := field_eq_of_bits a b 16 hm
  have hsegs : spec_segments a = spec_segments b := by
    unfold spec_segments
    rw [← hmask]
    apply List.map_congr_left
    intro i hi
    rw [List.mem_filter, List.mem_range] at hi
    obtain ⟨hi4, hbit⟩ := hi
    have hen : a.testBit (16 + i) = true := by
      have := field_testBit a 16 i
      unfold enable_mask at hbit
      rw [this] at hbit
      simpa [hi4] using hbit
    obtain ⟨hn, hdec⟩ := hd i hi4 hen
    have hda : (decimal_points a).testBit i = a.testBit (24 + i) := by
      unfold decimal_points; rw [field_testBit]; simp [hi4]
    have hdb : (decimal_points b).testBit i = b.testBit (24 + i) := by
      unfold decimal_points; rw [field_testBit]; simp [hi4]
    unfold spec_segment
    rw [hda, hdb, hdec, hn]
  refine ⟨?_, table_index_lt⟩
  rw [led_frame_spec, led_frame_spec, hmask, hsegs]

/-- C17 at the sample opcodes: digits 0 and 1 enabled in both arguments, which
differ in the two disabled digits, in their decimal bits and in bits 20 to 23
and 28 to 31. -/
theorem C17_frame_depends_on_enabled_witness :
    led_frame sampleMtcp boot.led_command 0x01034321
      = led_frame sampleMtcp (after_init sampleMtcp boot).led_command 0xFDF3AB21 ∧
    (∀ x : Int, (Int.land x display_mask).toNat < led_show.length) :=
  C17_frame_depends_on_enabled sampleMtcp boot.led_command
    (after_init sampleMtcp boot).led_command 0x01034321 0xFDF3AB21 (by decide) (by decide)

/-- C18: a button-event packet replaces the stored mask by
`((c & 0xF) << 4) + (b & 0xF)`, a value below 256 that depends only on the low
nibbles of `b` and `c`; nothing is transmitted and every other part of the
driver state is unchanged. -/
theorem C18_button_event_overwrites (K : Mtcp) (s : Driver) (b c : Nat) :
    tuxctl_handle_packet K s K.MTCP_BIOC_EVENT b c
      = ({ s with buttons_pressed := ((c &&& 0xF) <<< 4) + (b &&& 0xF) }, []) ∧
    ((c &&& 0xF) <<< 4) + (b &&& 0xF) < 256 ∧
    (∀ (s2 : Driver) (b2 c2 : Nat), b2 &&& 0xF = b &&& 0xF → c2 &&& 0xF = c &&& 0xF →
      (tuxctl_handle_packet K s2 K.MTCP_BIOC_EVENT b2 c2).1.buttons_pressed
        = (tuxctl_handle_packet K s K.MTCP_BIOC_EVENT b c).1.buttons_pressed) := by
  have hlt : ((c &&& 0xF) <<< 4) + (b &&& 0xF) < 256 := by
    have h1 : c &&& 0xF ≤ 0xF := Nat.and_le_right
    have h2 : b &&& 0xF ≤ 0xF := Nat.and_le_right
    rw [Nat.shiftLeft_eq]
    omega
  have hmod : (((c &&& 0xF) <<< 4) + (b &&& 0xF)) % 2 ^ 32 = ((c &&& 0xF) <<< 4) + (b &&& 0xF) :=
    Nat.mod_eq_of_lt (Nat.lt_trans hlt (by norm_num))
  refine ⟨?_, hlt, ?_⟩
  · rw [handle_bioc, hmod]
  · intro s2 b2 c2 hb hc
    rw [handle_bioc, handle_bioc, hb, hc]

/-! ## The elapsed-time display of `input.c` -/

theorem pack_digits_four (d : Nat → Nat) :
    pack_digits d 4 0 0 =
      ((((0 + (d 0 <<< (0 * shift_four))) % 2 ^ 32 + (d 1 <<< (1 * shift_four))) % 2 ^ 32
        + (d 2 <<< (2 * shift_four))) % 2 ^ 32 + (d 3 <<< (3 * shift_four))) % 2 ^ 32 := rfl

theorem field_eq_div (a k : Nat) : (a >>> k) &&& 0xF = a / 2 ^ k % 16 := by
  rw [Nat.shiftRight_eq_div_pow]
  exact Nat.and_pow_two_sub_one_eq_mod _ 4

theorem tdiv_natCast (n d : Nat) : Int.tdiv (n : Int) (d : Int) = ((n / d : Nat) : Int) := by
  rw [Int.tdiv_eq_ediv (Int.natCast_nonneg n) (Int.natCast_nonneg d)]
  norm_cast

theorem tmod_natCast (n d : Nat) : Int.tmod (n : Int) (d : Int) = ((n % d : Nat) : Int) := by
  rw [Int.tmod_eq_emod (Int.natCast_nonneg n) (Int.natCast_nonneg d)]
  norm_cast

theorem byte_natCast (n : Nat) : (((n : Int) % 256).toNat) = n % 256 := by
  omega

theorem display_time_value (k : Nat) (hk : k < 6000) :
    display_time_on_tux (k : Int) =
      k % 60 % 10 + 16 * (k % 60 / 10) + 256 * (k / 60 % 10) + 4096 * (k / 60 / 10)
        + 65536 * (if k / 60 < 10 then 7 else 15) + 16777216 * 4 := by
  have hm : Int.tdiv (k : Int) seconds_minute = ((k / 60 : Nat) : Int) := tdiv_natCast k 60
  have hs : Int.tmod (k : Int) seconds_minute = ((k % 60 : Nat) : Int) := tmod_natCast k 60
  have hd : ∀ n : Nat, Int.tdiv (n : Int) get_each = ((n / 10 : Nat) : Int) :=
    fun n => tdiv_natCast n 10
  have hr : ∀ n : Nat, Int.tmod (n : Int) get_each = ((n % 10 : Nat) : Int) :=
    fun n => tmod_natCast n 10
  have hlt : ∀ n : Nat, ((n : Int) < 10) ↔ n < 10 := by intro n; omega
  have b0 : k % 60 % 10 < 10 := by omega
  have b1 : k % 60 / 10 < 10 := by omega
  have b2 : k / 60 % 10 < 10 := by omega
  have b3 : k / 60 / 10 < 10 := by omega
  unfold display_time_on_tux
  simp only [hm, hs, hd, hr, byte_natCast, hlt, display_digits, pack_digits_four,
    Function.update_apply, shift_four, shift_sixteen, shift_twentyfour, light_3_led,
    light_4_led, light_second_decimal, Nat.shiftLeft_eq]
  generalize k % 60 % 10 = d0 at b0 ⊢
  generalize k % 60 / 10 = d1 at b1 ⊢
  generalize k / 60 % 10 = d2 at b2 ⊢
  generalize k / 60 / 10 = d3 at b3 ⊢
  generalize k / 60 = m
  clear hm hs hd hr hlt hk
  norm_num
  split <;> omega

/-- C19: for `0 <= num_seconds < 6000`, the argument `display_time_on_tux`
passes to `TUX_SET_LED` has the seconds in digits 0 and 1 and the minutes in
digits 2 and 3 (units first), the enable field `0x7` below ten minutes and `0xF`
from ten minutes on, the decimal field `0x4`, and all other bits zero. -/
theorem C19_time_packing (num_seconds : Int) (h0 : 0 ≤ num_seconds) (h1 : num_seconds < 6000) :
    (digit_nibble (display_time_on_tux num_seconds) 0 : Int) = num_seconds % 60 % 10 ∧
    (digit_nibble (display_time_on_tux num_seconds) 1 : Int) = num_seconds % 60 / 10 ∧
    (digit_nibble (display_time_on_tux num_seconds) 2 : Int) = num_seconds / 60 % 10 ∧
    (digit_nibble (display_time_on_tux num_seconds) 3 : Int) = num_seconds / 60 / 10 ∧
    enable_mask (display_time_on_tux num_seconds)
      = (if num_seconds / 60 < 10 then 0x7 else 0xF) ∧
    decimal_points (display_time_on_tux num_seconds) = 0x4 ∧
    (display_time_on_tux num_seconds >>> 20) &&& 0xF = 0 ∧
    display_time_on_tux num_seconds >>> 28 = 0 := by
  obtain ⟨k, rfl⟩ := Int.eq_ofNat_of_zero_le h0
  have hk : k < 6000 := by omega
  have hlt : (((k : Int) / 60) < 10) ↔ k / 60 < 10 := by omega
  have e0 : (k : Int) % 60 % 10 = ((k % 60 % 10 : Nat) : Int) := by omega
  have e1 : (k : Int) % 60 / 10 = ((k % 60 / 10 : Nat) : Int) := by omega
  have e2 : (k : Int) / 60 % 10 = ((k / 60 % 10 : Nat) : Int) := by omega
  have e3 : (k : Int) / 60 / 10 = ((k / 60 / 10 : Nat) : Int) := by omega
  have b0 : k % 60 % 10 < 10 := by omega
  have b1 : k % 60 / 10 < 10 := by omega
  have b2 : k / 60 % 10 < 10 := by omega
  have b3 : k / 60 / 10 < 10 := by omega
  rw [display_time_value k hk, e0, e1, e2, e3]
  simp only [digit_nibble, enable_mask, decimal_points, field_eq_div, hlt, Nat.cast_inj]
  simp only [Nat.shiftRight_eq_div_pow]
  generalize k % 60 % 10 = d0 at b0 ⊢
  generalize k % 60 / 10 = d1 at b1 ⊢
  generalize k / 60 % 10 = d2 at b2 ⊢
  generalize k / 60 / 10 = d3 at b3 ⊢
  generalize k / 60 = m
  clear hlt e0 e1 e2 e3 hk h0 h1
  norm_num
  refine ⟨?_, ?_, ?_, ?_, ?_, ?_, ?_, ?_⟩ <;> split <;> omega

/-- C19 at 754 seconds, shown as 12:34. -/
theorem C19_time_packing_witness :
    (digit_nibble (display_time_on_tux 754) 0 : Int) = 754 % 60 % 10 ∧
    (digit_nibble (display_time_on_tux 754) 1 : Int) = 754 % 60 / 10 ∧
    (digit_nibble (display_time_on_tux 754) 2 : Int) = 754 / 60 % 10 ∧
    (digit_nibble (display_time_on_tux 754) 3 : Int) = 754 / 60 / 10 ∧
    enable_mask (display_time_on_tux 754) = (if (754 : Int) / 60 < 10 then 0x7 else 0xF) ∧
    decimal_points (display_time_on_tux 754) = 0x4 ∧
    (display_time_on_tux 754 >>> 20) &&& 0xF = 0 ∧
    display_time_on_tux 754 >>> 28 = 0 :=
  C19_time_packing 754 (by decide) (by decide)

/-! ## The ioctl dispatcher -/

/-- C20: `tuxctl_ioctl` returns `-EINVAL` for every request number other than
the six it knows, transmitting nothing and leaving the driver state as it was;
`TUX_BUTTONS` with a null argument also returns `-EINVAL`, and stores no button
value. -/
theorem C20_ioctl_invalid (K : Mtcp) (T : TuxIoctl) (s t : Driver) (cmd arg : Nat)
    (hT : T.Distinct)
    (h1 : cmd ≠ T.TUX_INIT) (h2 : cmd ≠ T.TUX_BUTTONS) (h3 : cmd ≠ T.TUX_SET_LED)
    (h4 : cmd ≠ T.TUX_LED_ACK) (h5 : cmd ≠ T.TUX_LED_REQUEST) (h6 : cmd ≠ T.TUX_READ_LED) :
    (tuxctl_ioctl K T s cmd arg).1.ret = -EINVAL ∧
    (tuxctl_ioctl K T s cmd arg).1.sent = [] ∧
    (tuxctl_ioctl K T s cmd arg).1.state = s ∧
    (tuxctl_ioctl K T s cmd arg).2 = none ∧
    (tuxctl_ioctl K T t T.TUX_BUTTONS 0).1.ret = -EINVAL ∧
    (tuxctl_ioctl K T t T.TUX_BUTTONS 0).1.sent = [] ∧
    (tuxctl_ioctl K T t T.TUX_BUTTONS 0).2 = none := by
  have hbi : T.TUX_BUTTONS ≠ T.TUX_INIT := by
    unfold TuxIoctl.Distinct at hT
    simp only [List.nodup_cons, List.mem_cons, not_or] at hT
    exact fun h => hT.1.1 h.symm
  have e1 : tuxctl_ioctl K T s cmd arg = ({ state := s, sent := [], ret := -EINVAL }, none) := by
    unfold tuxctl_ioctl
    rw [if_neg h1, if_neg h2, if_neg h3, if_neg h4, if_neg h5, if_neg h6]
  have e2 : tuxctl_ioctl K T t T.TUX_BUTTONS 0 = tux_buttons t 0 := by
    unfold tuxctl_ioctl
    rw [if_neg hbi, if_pos rfl]
  rw [e1, e2]
  exact ⟨rfl, rfl, rfl, rfl, rfl, rfl, rfl⟩

/-- C20 at the sample request numbers, for the unknown request `0x99` in the
idle state after initialization. -/
theorem C20_ioctl_invalid_witness :
    (tuxctl_ioctl sampleMtcp sampleIoctl (after_init sampleMtcp boot) 0x99 5).1.ret = -EINVAL ∧
    (tuxctl_ioctl sampleMtcp sampleIoctl (after_init sampleMtcp boot) 0x99 5).1.sent = [] ∧
    (tuxctl_ioctl sampleMtcp sampleIoctl (after_init sampleMtcp boot) 0x99 5).1.state
      = after_init sampleMtcp boot ∧
    (tuxctl_ioctl sampleMtcp sampleIoctl (after_init sampleMtcp boot) 0x99 5).2 = none ∧
    (tuxctl_ioctl sampleMtcp sampleIoctl boot sampleIoctl.TUX_BUTTONS 0).1.ret = -EINVAL ∧
    (tuxctl_ioctl sampleMtcp sampleIoctl boot sampleIoctl.TUX_BUTTONS 0).1.sent = [] ∧
    (tuxctl_ioctl sampleMtcp sampleIoctl boot sampleIoctl.TUX_BUTTONS 0).2 = none :=
  C20_ioctl_invalid sampleMtcp sampleIoctl (after_init sampleMtcp boot) boot 0x99 5
    (by decide) (by decide) (by decide) (by decide) (by decide) (by decide) (by decide)

/-! ## Acknowledgments beyond the end of the queue -/

theorem run_append (K : Mtcp) (es fs : List Event) : ∀ s : Driver,
    run K s (es ++ fs) =
      ((run K (run K s es).1 fs).1, (run K s es).2 ++ (run K (run K s es).1 fs).2) := by
  induction es with
  | nil => intro s; simp [run_nil]
  | cons e es ih =>
    intro s
    rw [List.cons_append, run_cons, ih, run_cons]
    simp [List.append_assoc]

theorem run_acks_succ (K : Mtcp) (s : Driver) (m : Nat) :
    (run K s (Event.init :: ack_packets K (m + 1))).1 =
      (tuxctl_handle_packet K (run K s (Event.init :: ack_packets K m)).1 K.MTCP_ACK 0 0).1 := by
  have h : Event.init :: ack_packets K (m + 1)
      = (Event.init :: ack_packets K m) ++ [Event.packet K.MTCP_ACK 0 0] := by
    unfold ack_packets
    rw [List.replicate_succ', List.cons_append]
  rw [h, run_append, run_cons, run_nil, step_packet]

theorem run_acks_fields (K : Mtcp) (s : Driver) (hD : K.InboundDistinct) (m : Nat)
    (h3 : 3 ≤ m) (hm : m < 2 ^ 32) :
    (run K s (Event.init :: ack_packets K m)).1.track = m ∧
    (run K s (Event.init :: ack_packets K m)).1.cmd_end = 3 ∧
    (run K s (Event.init :: ack_packets K m)).1.command = (tux_init K s).state.command := by
  induction m, h3 using Nat.le_induction with
  | base =>
    have h : (run K s (Event.init :: ack_packets K 3)).1 = after_init K s := rfl
    rw [h, after_init_eq K s hD, tux_init_eq]
    exact ⟨rfl, rfl, rfl⟩
  | succ n hn ih =>
    obtain ⟨i1, i2, i3⟩ := ih (by omega)
    rw [run_acks_succ, handle_ack K _ 0 0 hD.1]
    split <;> simp [i1, i2, i3] <;> omega

/-- C21, as the code behaves: after `tux_init` and `m` acknowledgments, with
`m` at least 3, the pipeline has run through its queue (`track = m`,
`cmd_end = 3`), and one more acknowledgment still makes the handler transmit
`command[track]`, now with `track = m + 1` above `cmd_end`; from the twentieth
acknowledgment on the index lies outside the 20-byte array. -/
theorem C21_ack_transmits_past_queue_end (K : Mtcp) (s : Driver) (m : Nat)
    (hD : K.InboundDistinct) (h3 : 3 ≤ m) (hm : m + 1 < 2 ^ 32) :
    (run K s (Event.init :: ack_packets K m)).1.track = m ∧
    (run K s (Event.init :: ack_packets K m)).1.cmd_end = 3 ∧
    (tuxctl_handle_packet K (run K s (Event.init :: ack_packets K m)).1 K.MTCP_ACK 0 0).2
      = [tuxctl_ldisc_put (run K s (Event.init :: ack_packets K m)).1.command (m + 1) 1] ∧
    (tuxctl_handle_packet K (run K s (Event.init :: ack_packets K m)).1
      K.MTCP_ACK 0 0).1.track = m + 1 ∧
    (tuxctl_handle_packet K (run K s (Event.init :: ack_packets K m)).1
      K.MTCP_ACK 0 0).1.cmd_end = 3 ∧
    ¬ (((tuxctl_handle_packet K (run K s (Event.init :: ack_packets K m)).1
      K.MTCP_ACK 0 0).1.track : Int)
        < (tuxctl_handle_packet K (run K s (Event.init :: ack_packets K m)).1
          K.MTCP_ACK 0 0).1.cmd_end) ∧
    (19 ≤ m → command_size ≤ (tuxctl_handle_packet K
      (run K s (Event.init :: ack_packets K m)).1 K.MTCP_ACK 0 0).1.track) := by
  obtain ⟨i1, i2, _⟩ := run_acks_fields K s hD m h3 (by omega)
  have hmod : (m + 1) % 2 ^ 32 = m + 1 := Nat.mod_eq_of_lt hm
  have hne : (((((run K s (Event.init :: ack_packets K m)).1.track + 1) % 2 ^ 32 : Nat) : Int))
      ≠ (run K s (Event.init :: ack_packets K m)).1.cmd_end % 2 ^ 32 := by
    rw [i1, i2, hmod]
    norm_num
    omega
  rw [handle_ack_more K _ 0 0 hD.1 hne]
  simp only [i1, i2, hmod, put_one]
  refine ⟨trivial, trivial, trivial, trivial, trivial, ?_, ?_⟩
  · push_cast
    omega
  · intro h
    unfold command_size
    omega

/-- C21 evaluated at the sample opcodes from the freshly loaded module: the
twentieth acknowledgment after `tux_init`. -/
theorem C21_ack_transmits_past_queue_end_witness :
    (run sampleMtcp boot (Event.init :: ack_packets sampleMtcp 19)).1.track = 19 ∧
    (run sampleMtcp boot (Event.init :: ack_packets sampleMtcp 19)).1.cmd_end = 3 ∧
    (tuxctl_handle_packet sampleMtcp
      (run sampleMtcp boot (Event.init :: ack_packets sampleMtcp 19)).1 sampleMtcp.MTCP_ACK 0 0).2
      = [tuxctl_ldisc_put
          (run sampleMtcp boot (Event.init :: ack_packets sampleMtcp 19)).1.command (19 + 1) 1] ∧
    (tuxctl_handle_packet sampleMtcp
      (run sampleMtcp boot (Event.init :: ack_packets sampleMtcp 19)).1
      sampleMtcp.MTCP_ACK 0 0).1.track = 19 + 1 ∧
    (tuxctl_handle_packet sampleMtcp
      (run sampleMtcp boot (Event.init :: ack_packets sampleMtcp 19)).1
      sampleMtcp.MTCP_ACK 0 0).1.cmd_end = 3 ∧
    ¬ (((tuxctl_handle_packet sampleMtcp
      (run sampleMtcp boot (Event.init :: ack_packets sampleMtcp 19)).1
      sampleMtcp.MTCP_ACK 0 0).1.track : Int)
        < (tuxctl_handle_packet sampleMtcp
          (run sampleMtcp boot (Event.init :: ack_packets sampleMtcp 19)).1
          sampleMtcp.MTCP_ACK 0 0).1.cmd_end) ∧
    (19 ≤ 19 → command_size ≤ (tuxctl_handle_packet sampleMtcp
      (run sampleMtcp boot (Event.init :: ack_packets sampleMtcp 19)).1
      sampleMtcp.MTCP_ACK 0 0).1.track) :=
  C21_ack_transmits_past_queue_end sampleMtcp boot 19 (by decide) (by decide) (by decide)

/-! ## Initialization from any state -/

theorem led_build_zero (K : Mtcp) (lc : Nat → Nat) :
    (led_build K lc 0).led_command
      = Function.update (Function.update lc 0 (K.MTCP_LED_SET % 256)) 1 0 := by
  simp [led_build, led_loop, led_body, led_size, shift_sixteen, shift_twentyfour, display_mask,
    led_mask, led_shift, decimal_shift]

theorem tux_init_idem (K : Mtcp) (s : Driver) :
    (tux_init K (tux_init K s).state).state = (tux_init K s).state := by
  rw [tux_init_eq K (tux_init K s).state, tux_init_eq K s]
  simp only [led_build_zero]
  congr 1
  · funext i
    simp only [Function.update_apply]
    split_ifs <;> rfl
  · funext i
    simp only [Function.update_apply]
    split_ifs <;> rfl

/-- C22: from every prior state `tux_init` leaves `is_resetting = 0`,
`buttons_pressed = 0`, `track = 0`, `cmd_end = 3`, `enable_flag = 1`,
`last_led = 0` and the three commands of the burst in `command[0..2]`, and
transmits exactly the frame `[MTCP_RESET_DEV]`; calling it twice leaves the
same state as calling it once. -/
theorem C22_init_reestablishes_state (K : Mtcp) (s : Driver) (hK : K.OutboundBytes) :
    (tux_init K s).state.is_resetting = 0 ∧
    (tux_init K s).state.buttons_pressed = 0 ∧
    (tux_init K s).state.track = 0 ∧
    (tux_init K s).state.cmd_end = 3 ∧
    (tux_init K s).state.enable_flag = 1 ∧
    (tux_init K s).state.last_led = 0 ∧
    (tux_init K s).state.command 0 = K.MTCP_RESET_DEV ∧
    (tux_init K s).state.command 1 = K.MTCP_LED_USR ∧
    (tux_init K s).state.command 2 = K.MTCP_BIOC_ON ∧
    (tux_init K s).sent = [[K.MTCP_RESET_DEV]] ∧
    (tux_init K (tux_init K s).state).state = (tux_init K s).state ∧
    (tux_init K (tux_init K s).state).sent = [[K.MTCP_RESET_DEV]] := by
  obtain ⟨k1, k2, k3, _⟩ := hK
  refine ⟨?_, ?_, ?_, ?_, ?_, ?_, ?_, ?_, ?_, ?_, tux_init_idem K s, ?_⟩ <;>
    simp [tux_init_eq, Function.update_apply, Nat.mod_eq_of_lt, k1, k2, k3]

/-- C22 at the sample opcodes, from the state a display request, a button
event and a reset notification leave behind. -/
theorem C22_init_reestablishes_state_witness :
    (tux_init sampleMtcp (run sampleMtcp (after_init sampleMtcp boot)
      [Event.set_led 0x000F4321, Event.packet sampleMtcp.MTCP_BIOC_EVENT 0xAB 0xCD,
        Event.packet sampleMtcp.MTCP_RESET 0 0]).1).state.is_resetting = 0 ∧
    (tux_init sampleMtcp (run sampleMtcp (after_init sampleMtcp boot)
      [Event.set_led 0x000F4321, Event.packet sampleMtcp.MTCP_BIOC_EVENT 0xAB 0xCD,
        Event.packet sampleMtcp.MTCP_RESET 0 0]).1).state.buttons_pressed = 0 ∧
    (tux_init sampleMtcp (run sampleMtcp (after_init sampleMtcp boot)
      [Event.set_led 0x000F4321, Event.packet sampleMtcp.MTCP_BIOC_EVENT 0xAB 0xCD,
        Event.packet sampleMtcp.MTCP_RESET 0 0]).1).state.track = 0 ∧
    (tux_init sampleMtcp (run sampleMtcp (after_init sampleMtcp boot)
      [Event.set_led 0x000F4321, Event.packet sampleMtcp.MTCP_BIOC_EVENT 0xAB 0xCD,
        Event.packet sampleMtcp.MTCP_RESET 0 0]).1).state.cmd_end = 3 ∧
    (tux_init sampleMtcp (run sampleMtcp (after_init sampleMtcp boot)
      [Event.set_led 0x000F4321, Event.packet sampleMtcp.MTCP_BIOC_EVENT 0xAB 0xCD,
        Event.packet sampleMtcp.MTCP_RESET 0 0]).1).state.enable_flag = 1 ∧
    (tux_init sampleMtcp (run sampleMtcp (after_init sampleMtcp boot)
      [Event.set_led 0x000F4321, Event.packet sampleMtcp.MTCP_BIOC_EVENT 0xAB 0xCD,
        Event.packet sampleMtcp.MTCP_RESET 0 0]).1).state.last_led = 0 ∧
    (tux_init sampleMtcp (run sampleMtcp (after_init sampleMtcp boot)
      [Event.set_led 0x000F4321, Event.packet sampleMtcp.MTCP_BIOC_EVENT 0xAB 0xCD,
        Event.packet sampleMtcp.MTCP_RESET 0 0]).1).state.command 0
      = sampleMtcp.MTCP_RESET_DEV ∧
    (tux_init sampleMtcp (run sampleMtcp (after_init sampleMtcp boot)
      [Event.set_led 0x000F4321, Event.packet sampleMtcp.MTCP_BIOC_EVENT 0xAB 0xCD,
        Event.packet sampleMtcp.MTCP_RESET 0 0]).1).state.command 1
      = sampleMtcp.MTCP_LED_USR ∧
    (tux_init sampleMtcp (run sampleMtcp (after_init sampleMtcp boot)
      [Event.set_led 0x000F4321, Event.packet sampleMtcp.MTCP_BIOC_EVENT 0xAB 0xCD,
        Event.packet sampleMtcp.MTCP_RESET 0 0]).1).state.command 2
      = sampleMtcp.MTCP_BIOC_ON ∧
    (tux_init sampleMtcp (run sampleMtcp (after_init sampleMtcp boot)
      [Event.set_led 0x000F4321, Event.packet sampleMtcp.MTCP_BIOC_EVENT 0xAB 0xCD,
        Event.packet sampleMtcp.MTCP_RESET 0 0]).1).sent = [[sampleMtcp.MTCP_RESET_DEV]] ∧
    (tux_init sampleMtcp (tux_init sampleMtcp (run sampleMtcp (after_init sampleMtcp boot)
      [Event.set_led 0x000F4321, Event.packet sampleMtcp.MTCP_BIOC_EVENT 0xAB 0xCD,
        Event.packet sampleMtcp.MTCP_RESET 0 0]).1).state).state
      = (tux_init sampleMtcp (run sampleMtcp (after_init sampleMtcp boot)
          [Event.set_led 0x000F4321, Event.packet sampleMtcp.MTCP_BIOC_EVENT 0xAB 0xCD,
            Event.packet sampleMtcp.MTCP_RESET 0 0]).1).state ∧
    (tux_init sampleMtcp (tux_init sampleMtcp (run sampleMtcp (after_init sampleMtcp boot)
      [Event.set_led 0x000F4321, Event.packet sampleMtcp.MTCP_BIOC_EVENT 0xAB 0xCD,
        Event.packet sampleMtcp.MTCP_RESET 0 0]).1).state).sent
      = [[sampleMtcp.MTCP_RESET_DEV]] :=
  C22_init_reestablishes_state sampleMtcp (run sampleMtcp (after_init sampleMtcp boot)
    [Event.set_led 0x000F4321, Event.packet sampleMtcp.MTCP_BIOC_EVENT 0xAB 0xCD,
      Event.packet sampleMtcp.MTCP_RESET 0 0]).1 (by decide)

end Tux
